import Mathlib

/-!
Verification of the sfusd-core CC framework and Prices contract glue code.

This development shallowly embeds the parts of the repository that the
checked properties are about:

* the SHA-256 implementation ported from libtom in `src/powerblockcoin.cpp`
  (`sha256_vcompress`, `sha256_vprocess`, `sha256_vdone`, `vcalc_sha256`);
* the contract-registry construction in `src/cc/CCcustom.cpp`
  (`CClib_initcp`, `CCinit`) together with the compiled-in per-contract
  constants (addresses, public keys, private keys);
* the price-pipeline RPC glue in `src/rpc/blockchain.cpp`
  (`prices`, `pricesbet`, `pricesrekt`);
* the fee macro `PRICES_SUBREVSHAREFEE` from `src/cc/CCPrices.h`.

Machine integers are modelled as `Nat`/`Int` with explicit reductions
modulo `2^32`/`2^64` where the C code works in `uint32_t`/`uint64_t`,
and with explicit two's-complement wrapping where `int64_t`/`int16_t`
overflow matters.  External cryptographic and chain-state helpers that
are not part of this repository's sources (secp256k1 key recovery,
base58 address encoding, the chain's price-history accessors) are
modelled as explicit environment parameters: every theorem is stated
for an arbitrary such environment, or for a concrete instantiation when
a closed witness is required.
-/

namespace SfusdCore

/-! ## SHA-256 (ported from libtom, `src/powerblockcoin.cpp` lines 56-288)

Bytes are `Nat` values below 256, 32-bit words are `Nat` values below
`2^32`; uint32 arithmetic is made explicit with `w32`. -/

/-- Truncation to 32 bits: the implicit `uint32_t` wraparound of the C code. -/
def w32 (x : Nat) : Nat := x % 4294967296

/-- The `RORc(x, y)` rotate-right macro of powerblockcoin.cpp:
`((((uint32_t)(x)&0xFFFFFFFFUL)>>(uint32_t)((y)&31)) |
((uint32_t)(x)<<(uint32_t)(32-((y)&31)))) & 0xFFFFFFFFUL`. -/
def RORc (x y : Nat) : Nat :=
  w32 ((w32 x >>> (y % 32)) ||| (w32 x <<< (32 - y % 32)))

/-- The `Ch(x,y,z)` macro: `z ^ (x & (y ^ z))`. -/
def shaCh (x y z : Nat) : Nat := z ^^^ (x &&& (y ^^^ z))

/-- The `Maj(x,y,z)` macro: `((x | y) & z) | (x & y)`. -/
def shaMaj (x y z : Nat) : Nat := ((x ||| y) &&& z) ||| (x &&& y)

/-- The `Sigma0` macro: `S(x,2) ^ S(x,13) ^ S(x,22)`. -/
def shaSigma0 (x : Nat) : Nat := RORc x 2 ^^^ RORc x 13 ^^^ RORc x 22

/-- The `Sigma1` macro: `S(x,6) ^ S(x,11) ^ S(x,25)`. -/
def shaSigma1 (x : Nat) : Nat := RORc x 6 ^^^ RORc x 11 ^^^ RORc x 25

/-- The `Gamma0` macro: `S(x,7) ^ S(x,18) ^ R(x,3)` with
`R(x,n) = ((x)&0xFFFFFFFFUL)>>(n)`. -/
def shaGamma0 (x : Nat) : Nat := RORc x 7 ^^^ RORc x 18 ^^^ (w32 x >>> 3)

/-- The `Gamma1` macro: `S(x,17) ^ S(x,19) ^ R(x,10)`. -/
def shaGamma1 (x : Nat) : Nat := RORc x 17 ^^^ RORc x 19 ^^^ (w32 x >>> 10)

/-- The 64 round constants, in the order of the unrolled `RND` invocations
of `sha256_vcompress` (the source writes them in hexadecimal; they are
given here in decimal). -/
def sha256K : List Nat :=
  [1116352408, 1899447441, 3049323471, 3921009573,
   961987163, 1508970993, 2453635748, 2870763221,
   3624381080, 310598401, 607225278, 1426881987,
   1925078388, 2162078206, 2614888103, 3248222580,
   3835390401, 4022224774, 264347078, 604807628,
   770255983, 1249150122, 1555081692, 1996064986,
   2554220882, 2821834349, 2952996808, 3210313671,
   3336571891, 3584528711, 113926993, 338241895,
   666307205, 773529912, 1294757372, 1396182291,
   1695183700, 1986661051, 2177026350, 2456956037,
   2730485921, 2820302411, 3259730800, 3345764771,
   3516065817, 3600352804, 4094571909, 275423344,
   430227734, 506948616, 659060556, 883997877,
   958139571, 1322822218, 1537002063, 1747873779,
   1955562222, 2024104815, 2227730452, 2361852424,
   2428436474, 2756734187, 3204031479, 3329325298]

/-- The eight working registers of the compression function.  In the C
source these are the array `S[8]`; the unrolled `RND` macro rotates which
array slot plays the role of a..h, which here is written as an explicit
register shuffle per round. -/
structure Sha256Regs where
  a : Nat
  b : Nat
  c : Nat
  d : Nat
  e : Nat
  f : Nat
  g : Nat
  h : Nat
deriving Repr, DecidableEq

/-- One `RND(a,b,c,d,e,f,g,h,i,ki)` step:
`t0 = h + Sigma1(e) + Ch(e,f,g) + ki + W[i]; t1 = Sigma0(a) + Maj(a,b,c);
d += t0; h = t0 + t1;` followed by the role rotation the unrolled calls
perform by permuting their arguments. -/
def sha256RND (S : Sha256Regs) (ki wi : Nat) : Sha256Regs :=
  let t0 := w32 (S.h + shaSigma1 S.e + shaCh S.e S.f S.g + ki + wi)
  let t1 := w32 (shaSigma0 S.a + shaMaj S.a S.b S.c)
  { a := w32 (t0 + t1), b := S.a, c := S.b, d := S.c,
    e := w32 (S.d + t0), f := S.e, g := S.f, h := S.g }

/-- `LOAD32H`: big-endian load of consecutive 4-byte groups into 32-bit
words, as the `W[0..15]` fill loop of `sha256_vcompress` does. -/
def load32H : List Nat → List Nat
  | b0 :: b1 :: b2 :: b3 :: rest =>
      (((b0 &&& 255) <<< 24) ||| ((b1 &&& 255) <<< 16) |||
       ((b2 &&& 255) <<< 8) ||| (b3 &&& 255)) :: load32H rest
  | _ => []

/-- The `W[16..63]` fill loop:
`W[i] = Gamma1(W[i-2]) + W[i-7] + Gamma0(W[i-15]) + W[i-16]` in uint32
arithmetic, run `n` more times. -/
def sha256Wextend : Nat → List Nat → List Nat
  | 0, ws => ws
  | n + 1, ws =>
      sha256Wextend n (ws ++
        [w32 (shaGamma1 (ws.getD (ws.length - 2) 0) + ws.getD (ws.length - 7) 0 +
              shaGamma0 (ws.getD (ws.length - 15) 0) + ws.getD (ws.length - 16) 0)])

/-- `sha256_vcompress`: load the 64-byte block into `W[0..15]`, extend to
`W[0..63]`, run the 64 unrolled rounds, and add the result back into the
state (`md->state[i] += S[i]`). -/
def sha256_vcompress (state : List Nat) (buf : List Nat) : List Nat :=
  let W := sha256Wextend 48 (load32H (buf.take 64))
  let S0 : Sha256Regs :=
    { a := state.getD 0 0, b := state.getD 1 0, c := state.getD 2 0,
      d := state.getD 3 0, e := state.getD 4 0, f := state.getD 5 0,
      g := state.getD 6 0, h := state.getD 7 0 }
  let Sf := (List.zip sha256K W).foldl (fun S kw => sha256RND S kw.1 kw.2) S0
  List.zipWith (fun s t => w32 (s + t)) state
    [Sf.a, Sf.b, Sf.c, Sf.d, Sf.e, Sf.f, Sf.g, Sf.h]

/-- The `sha256_vstate` struct: bit length processed so far, the eight
32-bit state words, and the partial-block buffer (`curlen` is
`buf.length`). -/
structure Sha256VState where
  length : Nat
  state : List Nat
  buf : List Nat
deriving Repr, DecidableEq

/-- `sha256_vinit`: zero counters and the standard initial state words. -/
def sha256_vinit : Sha256VState :=
  { length := 0,
    state := [1779033703, 3144134277, 1013904242, 2773480762,
              1359893119, 2600822924, 528734635, 1541459225],
    buf := [] }

/-- `sha256_vprocess`: consume input, compressing each full 64-byte block
and buffering the remainder.  The C loop's `memcpy` of `n` bytes into the
buffer is taken one byte at a time, which compresses at exactly the same
block boundaries. -/
def sha256_vprocess (md : Sha256VState) (input : List Nat) : Sha256VState :=
  if _h : 64 ≤ input.length ∧ md.buf = [] then
    sha256_vprocess
      { length := md.length + 64 * 8,
        state := sha256_vcompress md.state (input.take 64), buf := [] }
      (input.drop 64)
  else
    match input with
    | [] => md
    | b :: rest =>
        let buf1 := md.buf ++ [b]
        if buf1.length = 64 then
          sha256_vprocess
            { length := md.length + 64 * 8,
              state := sha256_vcompress md.state buf1, buf := [] } rest
        else
          sha256_vprocess { md with buf := buf1 } rest
termination_by input.length
decreasing_by
  · simp only [List.length_drop]
    omega
  · simp
  · simp

/-- `STORE64H`: big-endian store of a 64-bit value as 8 bytes. -/
def store64H (x : Nat) : List Nat :=
  [(x >>> 56) &&& 255, (x >>> 48) &&& 255, (x >>> 40) &&& 255,
   (x >>> 32) &&& 255, (x >>> 24) &&& 255, (x >>> 16) &&& 255,
   (x >>> 8) &&& 255, x &&& 255]

/-- `STORE32H`: big-endian store of a 32-bit value as 4 bytes. -/
def store32H (x : Nat) : List Nat :=
  [(x >>> 24) &&& 255, (x >>> 16) &&& 255, (x >>> 8) &&& 255, x &&& 255]

/-- `sha256_vdone`: account the buffered bytes in the bit length, append
the 0x80 terminator, compress an extra block if fewer than 8 bytes of
padding remain, zero-pad to 56 bytes, store the 64-bit big-endian bit
length, compress, and emit the state big-endian. -/
def sha256_vdone (md : Sha256VState) : List Nat :=
  let len := md.length + md.buf.length * 8
  let buf1 := md.buf ++ [0x80]
  let st2 :=
    if 56 < buf1.length then
      sha256_vcompress md.state (buf1 ++ List.replicate (64 - buf1.length) 0)
    else md.state
  let buf2 := if 56 < buf1.length then ([] : List Nat) else buf1
  let final :=
    sha256_vcompress st2 (buf2 ++ List.replicate (56 - buf2.length) 0 ++ store64H len)
  (final.take 8).foldr (fun x acc => store32H x ++ acc) []

/-- `vcalc_sha256` (powerblockcoin.cpp lines 276-288): init, process the
whole message, finalize. -/
def vcalc_sha256 (src : List Nat) : List Nat :=
  sha256_vdone (sha256_vprocess sha256_vinit src)

/-! ## Hex encoding and decoding

`decode_hex` models the hex decoder used on the compiled-in public-key
strings; `hexEncode` models the `sprintf(&cp->CChexstr[i*2],"%02x",pub33[i])`
loop of `CClib_initcp`. -/

/-- Value of one hexadecimal digit character. -/
def hexVal (c : Char) : Nat :=
  if '0' ≤ c ∧ c ≤ '9' then c.toNat - Char.toNat '0'
  else if 'a' ≤ c ∧ c ≤ 'f' then c.toNat - Char.toNat 'a' + 10
  else if 'A' ≤ c ∧ c ≤ 'F' then c.toNat - Char.toNat 'A' + 10
  else 0

/-- Pair up hex digits into bytes. -/
def hexPairs : List Char → List Nat
  | c0 :: c1 :: rest => (hexVal c0 * 16 + hexVal c1) :: hexPairs rest
  | _ => []

/-- Decode an even-length hex string into bytes (`decode_hex`). -/
def decode_hex (s : String) : List Nat := hexPairs s.toList

/-- Lowercase hex digit character for a value below 16. -/
def hexChar (n : Nat) : Char :=
  (String.toList "0123456789abcdef").getD (n % 16) '0'

/-- Two lowercase hex digits for one byte, as `sprintf("%02x", b)`. -/
def hexByte (b : Nat) : List Char := [hexChar (b / 16), hexChar (b % 16)]

/-- Lowercase hex string of a byte list. -/
def hexEncode (bs : List Nat) : String :=
  String.mk (bs.foldr (fun b acc => hexByte b ++ acc) [])

/-! ## Eval codes

The numeric eval-code constants live in `cc/eval.h`, which is not among
the provided sources; the values below follow the upstream table the
spec describes (a reserved built-in range plus an open
first-user..last-user range). -/

/-- Modelled from the spec: `EVAL_ASSETS` from cc/eval.h (not under src/). -/
def EVAL_ASSETS : Nat := 0xe3
/-- Modelled from the spec: `EVAL_FAUCET` from cc/eval.h (not under src/). -/
def EVAL_FAUCET : Nat := 0xe4
/-- Modelled from the spec: `EVAL_REWARDS` from cc/eval.h (not under src/). -/
def EVAL_REWARDS : Nat := 0xe5
/-- Modelled from the spec: `EVAL_DICE` from cc/eval.h (not under src/). -/
def EVAL_DICE : Nat := 0xe6
/-- Modelled from the spec: `EVAL_FSM` from cc/eval.h (not under src/). -/
def EVAL_FSM : Nat := 0xe7
/-- Modelled from the spec: `EVAL_AUCTION` from cc/eval.h (not under src/). -/
def EVAL_AUCTION : Nat := 0xe8
/-- Modelled from the spec: `EVAL_LOTTO` from cc/eval.h (not under src/). -/
def EVAL_LOTTO : Nat := 0xe9
/-- Modelled from the spec: `EVAL_HEIR` from cc/eval.h (not under src/). -/
def EVAL_HEIR : Nat := 0xea
/-- Modelled from the spec: `EVAL_CHANNELS` from cc/eval.h (not under src/). -/
def EVAL_CHANNELS : Nat := 0xeb
/-- Modelled from the spec: `EVAL_ORACLES` from cc/eval.h (not under src/). -/
def EVAL_ORACLES : Nat := 0xec
/-- Modelled from the spec: `EVAL_PRICES` from cc/eval.h (not under src/). -/
def EVAL_PRICES : Nat := 0xed
/-- Modelled from the spec: `EVAL_PEGS` from cc/eval.h (not under src/). -/
def EVAL_PEGS : Nat := 0xee
/-- Modelled from the spec: `EVAL_MARMARA` from cc/eval.h (not under src/). -/
def EVAL_MARMARA : Nat := 0xef
/-- Modelled from the spec: `EVAL_PAYMENTS` from cc/eval.h (not under src/). -/
def EVAL_PAYMENTS : Nat := 0xf0
/-- Modelled from the spec: `EVAL_GATEWAYS` from cc/eval.h (not under src/). -/
def EVAL_GATEWAYS : Nat := 0xf1
/-- Modelled from the spec: `EVAL_TOKENS` from cc/eval.h (not under src/). -/
def EVAL_TOKENS : Nat := 0xf2
/-- Modelled from the spec: `EVAL_IMPORTGATEWAY` from cc/eval.h (not under src/). -/
def EVAL_IMPORTGATEWAY : Nat := 0xf3
/-- Modelled from the spec: `EVAL_FIRSTUSER`, the first user-defined eval
code, from cc/eval.h (not under src/). -/
def EVAL_FIRSTUSER : Nat := 0x10
/-- Modelled from the spec: `EVAL_LASTUSER`, the last user-defined eval
code, from cc/eval.h (not under src/). -/
def EVAL_LASTUSER : Nat := 0x7f

/-! ## Compiled-in contract constants (`src/cc/CCcustom.cpp`) -/

/-- Assets private key (CCcustom.cpp line 66). -/
def AssetsCCpriv : List Nat :=
  [0x9b, 0x17, 0x66, 0xe5, 0x82, 0x66, 0xac, 0xb6, 0xba, 0x43, 0x83, 0x74, 0xf7, 0x63, 0x11, 0x3b,
   0xf0, 0xf3, 0x50, 0x6f, 0xd9, 0x6b, 0x67, 0x85, 0xf9, 0x7a, 0xf0, 0x54, 0x4d, 0xb1, 0x30, 0x77]
/-- Faucet private key (line 84). -/
def FaucetCCpriv : List Nat :=
  [0xd4, 0x4f, 0xf2, 0x31, 0x71, 0x7d, 0x28, 0x02, 0x4b, 0xc7, 0xdd, 0x71, 0xa0, 0x39, 0xc4, 0xbe,
   0x1a, 0xfe, 0xeb, 0xc2, 0x46, 0xda, 0x76, 0xf8, 0x07, 0x53, 0x3d, 0x96, 0xb4, 0xca, 0xa0, 0xe9]
/-- Rewards private key (line 96). -/
def RewardsCCpriv : List Nat :=
  [0x82, 0xf5, 0xd2, 0xe7, 0xd6, 0x99, 0x33, 0x77, 0xfb, 0x80, 0x00, 0x97, 0x23, 0x3d, 0x1e, 0x6f,
   0x61, 0xa9, 0xb5, 0x2e, 0x5e, 0xb4, 0x96, 0x6f, 0xbc, 0xed, 0x6b, 0xe2, 0xbb, 0x7b, 0x4b, 0xb3]
/-- Dice private key (line 107). -/
def DiceCCpriv : List Nat :=
  [0x0e, 0xe8, 0xf5, 0xb4, 0x3d, 0x25, 0xcc, 0x35, 0xd1, 0xf1, 0x2f, 0x04, 0x5f, 0x01, 0x26, 0xb8,
   0xd1, 0xac, 0x3a, 0x5a, 0xea, 0xe0, 0x25, 0xa2, 0x8f, 0x2a, 0x8e, 0x0e, 0xf9, 0x34, 0xfa, 0x77]
/-- Lotto private key (line 118). -/
def LottoCCpriv : List Nat :=
  [0xb4, 0xac, 0xc2, 0xd9, 0x67, 0x34, 0xd7, 0x58, 0x80, 0x4e, 0x25, 0x55, 0xc0, 0x50, 0x66, 0x84,
   0xbb, 0xa2, 0xe7, 0xc0, 0x39, 0x17, 0xb4, 0xc5, 0x07, 0xb7, 0x3f, 0xca, 0x07, 0xb0, 0x9a, 0xeb]
/-- FSM private key (line 129). -/
def FSMCCpriv : List Nat :=
  [0x11, 0xe1, 0xea, 0x3e, 0xdb, 0x36, 0xf0, 0xa8, 0xc6, 0x34, 0xe1, 0x21, 0xb8, 0x02, 0xb9, 0x4b,
   0x12, 0x37, 0x8f, 0xa0, 0x86, 0x23, 0x50, 0xb2, 0x5f, 0xe4, 0xe7, 0x36, 0x0f, 0xda, 0xae, 0xfc]
/-- Auction private key (line 140). -/
def AuctionCCpriv : List Nat :=
  [0x8c, 0x1b, 0xb7, 0x8c, 0x02, 0xa3, 0x9d, 0x21, 0x28, 0x59, 0xf5, 0xea, 0xda, 0xec, 0x0d, 0x11,
   0xcd, 0x38, 0x47, 0xac, 0x0b, 0x6f, 0x19, 0xc0, 0x24, 0x36, 0xbf, 0x1c, 0x0a, 0x06, 0x31, 0xfb]
/-- Heir private key (line 151). -/
def HeirCCpriv : List Nat :=
  [0x9d, 0xa1, 0xf8, 0xf7, 0xba, 0x0a, 0x91, 0x36, 0x89, 0x9a, 0x86, 0x30, 0x63, 0x20, 0xd7, 0xdf,
   0xaa, 0x35, 0xe3, 0x99, 0x32, 0x2b, 0x63, 0xc0, 0x66, 0x9c, 0x93, 0xc4, 0x5e, 0x9d, 0xb9, 0xce]
/-- Channels private key (line 162). -/
def ChannelsCCpriv : List Nat :=
  [0xec, 0x91, 0x36, 0x15, 0x2d, 0xd4, 0x48, 0x73, 0x22, 0x36, 0x4f, 0x6a, 0x34, 0x5c, 0x61, 0x0f,
   0x01, 0xb4, 0x79, 0xe8, 0x1c, 0x2f, 0xa1, 0x1d, 0x4a, 0x0a, 0x21, 0x16, 0xea, 0x82, 0x84, 0x60]
/-- Oracles private key (line 173). -/
def OraclesCCpriv : List Nat :=
  [0xf7, 0x4b, 0x5b, 0xa2, 0x7a, 0x5e, 0x9c, 0xda, 0x89, 0xb1, 0xcb, 0xb9, 0xe6, 0x9c, 0x2c, 0x70,
   0x85, 0x37, 0xdd, 0x00, 0x7a, 0x67, 0xff, 0x7c, 0x62, 0x1b, 0xe2, 0xfb, 0x04, 0x8f, 0x85, 0xbf]
/-- Prices private key (line 184). -/
def PricesCCpriv : List Nat :=
  [0x0a, 0x3b, 0xe7, 0x5d, 0xce, 0x06, 0xed, 0xb7, 0xc0, 0xb1, 0xbe, 0xe8, 0x7b, 0x5a, 0xd4, 0x99,
   0xb8, 0x8d, 0xde, 0xac, 0xb2, 0x7e, 0x7a, 0x52, 0x96, 0x15, 0xd2, 0xa0, 0xc6, 0xb9, 0x89, 0x61]
/-- Pegs private key (line 195). -/
def PegsCCpriv : List Nat :=
  [0x52, 0x56, 0x4c, 0x78, 0x87, 0xf7, 0xa2, 0x39, 0xb0, 0x90, 0xb7, 0xb8, 0x62, 0x80, 0x0f, 0x83,
   0x18, 0x9d, 0xf4, 0xf4, 0xbd, 0x28, 0x09, 0xa9, 0x9b, 0x85, 0x54, 0x16, 0x0f, 0x3f, 0xfb, 0x65]
/-- Marmara private key (line 206). -/
def MarmaraCCpriv : List Nat :=
  [0x7c, 0x0b, 0x54, 0x9b, 0x65, 0xd4, 0x89, 0x57, 0xdf, 0x05, 0xfe, 0xa2, 0x62, 0x41, 0xa9, 0x09,
   0x0f, 0x2a, 0x6b, 0x11, 0x2c, 0xbe, 0xbd, 0x06, 0x31, 0x8d, 0xc0, 0xb9, 0x96, 0x76, 0x3f, 0x24]
/-- Payments private key (line 217). -/
def PaymentsCCpriv : List Nat :=
  [0x03, 0xc9, 0x73, 0xc2, 0xb8, 0x30, 0x3d, 0xbd, 0xc8, 0xd9, 0xbf, 0x02, 0x49, 0xd9, 0x65, 0x61,
   0x45, 0xed, 0x9e, 0x93, 0x51, 0xab, 0x8b, 0x2e, 0xe7, 0xc7, 0x40, 0xf1, 0xc4, 0xd2, 0xc0, 0x5b]
/-- Gateways private key (line 228). -/
def GatewaysCCpriv : List Nat :=
  [0xf7, 0x4b, 0x5b, 0xa2, 0x7a, 0x5e, 0x9c, 0xda, 0x89, 0xb1, 0xcb, 0xb9, 0xe6, 0x9c, 0x2c, 0x70,
   0x85, 0x37, 0xdd, 0x00, 0x7a, 0x67, 0xff, 0x7c, 0x62, 0x1b, 0xe2, 0xfb, 0x04, 0x8f, 0x85, 0xbf]
/-- Tokens private key (line 239). -/
def TokensCCpriv : List Nat :=
  [0x1d, 0x0d, 0x0d, 0xce, 0x2d, 0xd2, 0xe1, 0x9d, 0xf5, 0xb6, 0x26, 0xd5, 0xad, 0xa0, 0xf0, 0x0a,
   0xdd, 0x7a, 0x72, 0x7d, 0x17, 0x35, 0xb5, 0xe3, 0x2c, 0x6c, 0xa9, 0xa2, 0x03, 0x16, 0x4b, 0xcf]
/-- CClib hash-chain seed private key (line 248). -/
def CClibCCpriv : List Nat :=
  [0x57, 0xcf, 0x49, 0x71, 0x7d, 0xb4, 0x15, 0x1b, 0x4f, 0x98, 0xc5, 0x45, 0x8d, 0x26, 0x52, 0x4b,
   0x7b, 0xe9, 0xbd, 0x55, 0xd8, 0x20, 0xd6, 0xc4, 0x82, 0x0f, 0xf5, 0xec, 0x6c, 0x1c, 0xa0, 0xc0]
/-- ImportGateway private key (line 259). -/
def ImportGatewayCCpriv : List Nat :=
  [0x65, 0xef, 0x27, 0xeb, 0x3d, 0xb0, 0xb4, 0xae, 0x0f, 0xbc, 0x77, 0xdb, 0xf8, 0x40, 0x48, 0x90,
   0x52, 0x20, 0x9e, 0x45, 0x3b, 0x49, 0xd8, 0x97, 0x60, 0x8c, 0x27, 0x4c, 0x59, 0x46, 0xe1, 0xdf]

/-- Assets addresses and public key. -/
def AssetsCCaddr : String := "SULEgyM44bjAi7JhHbT3stoiB7UN3bgWi7"
/-- Assets signer address. -/
def AssetsNormaladdr : String := "STZ2zJDuTJB95ajMydhsxxRukiFj5YybME"
/-- Faucet treasury address. -/
def FaucetCCaddr : String := "SN16p8ZZZ9JDZXqNBS7LJsS3vfrsar876v"
/-- Faucet signer address. -/
def FaucetNormaladdr : String := "SXRJ28SjCQKacpNGNK3TEpvQjxEL4sNDzx"
/-- Rewards treasury address. -/
def RewardsCCaddr : String := "SftE8sDsQzJzFXU6xSJiS6hJX1MLtF9YvC"
/-- Rewards signer address. -/
def RewardsNormaladdr : String := "SZhnbUdWkXmMsFZk568kFWdpEDyH8WdTxs"
/-- Dice treasury address. -/
def DiceCCaddr : String := "SSbQTW1BrnkheLkWRp5m5cmeHAZP3TfPiN"
/-- Dice signer address. -/
def DiceNormaladdr : String := "SYFT5z16oaqrMq8yDSmLB6XwNndQLtTUJJ"
/-- Lotto treasury address. -/
def LottoCCaddr : String := "SaYNv1sNZhciyjU6M3TY7TSrFijcgmGxDk"
/-- Lotto signer address. -/
def LottoNormaladdr : String := "SYWuf2KhK6wye6443euybvVQeNTvmTepRR"
/-- FSM treasury address. -/
def FSMCCaddr : String := "SgLGYf5WTDgPDLs88xKWqRY7nrGrArjtTA"
/-- FSM signer address. -/
def FSMNormaladdr : String := "SiT6NvreS5jYg3EsUHi5p2a3GcTrk2pwtY"
/-- Auction treasury address. -/
def AuctionCCaddr : String := "SY5MLr1AfoRtFEDeumEzH9s9JGZ7BZ5vho"
/-- Auction signer address. -/
def AuctionNormaladdr : String := "STuJAhfVb6a5ps42Kgbce47TEEfWfP2B8m"
/-- Heir treasury address. -/
def HeirCCaddr : String := "SRW6ZmYcu55GzVFgz5NREDcQKHuEdRPXUF"
/-- Heir signer address. -/
def HeirNormaladdr : String := "SfQkS4DQMjzuEPxKPoCeo5VwbPnFYEkj2P"
/-- Channels treasury address. -/
def ChannelsCCaddr : String := "ScyrpGQzzvYRg4Ts7QvDmXudvWrSpXZYHM"
/-- Channels signer address. -/
def ChannelsNormaladdr : String := "ScViQTtdtTcHz8eTMKkzwarokoKzrAqNm9"
/-- Oracles treasury address. -/
def OraclesCCaddr : String := "SStq9PTDv4XAzpRUW5fcpXt47iLHLV79hT"
/-- Oracles signer address. -/
def OraclesNormaladdr : String := "SVm4HKfskRLnVxwFF8xpntd4giT1jaiPHQ"
/-- Prices treasury address. -/
def PricesCCaddr : String := "SNLtT22EfJeTgcigQ7jxn78wN8X9BkR9im"
/-- Prices signer address. -/
def PricesNormaladdr : String := "SPvbUXmDRHTzqvX6ChQdECWDXZiqCgLPuQ"
/-- Pegs treasury address. -/
def PegsCCaddr : String := "SVoZSv1nRSgRBY9xpTEy3ovKqr7Cm3kkJy"
/-- Pegs signer address. -/
def PegsNormaladdr : String := "SZd1XDQxkq3e8HTwtbQevcAm28GPDzYmxY"
/-- Marmara treasury address. -/
def MarmaraCCaddr : String := "SUMFNYgLxzZgVty9W9NT99koL8ni3VxkEL"
/-- Marmara signer address. -/
def MarmaraNormaladdr : String := "SZNq2nfzVvPFRhdyUduKGWJ8pr85iwcCbf"
/-- Payments treasury address. -/
def PaymentsCCaddr : String := "SSqnH31T4QtGN8yJiymk4gtGDMCzzspeK9"
/-- Payments signer address. -/
def PaymentsNormaladdr : String := "SVSL5kMDJER4up4QHYqqNgRMKdfoFXy3rH"
/-- Gateways treasury address. -/
def GatewaysCCaddr : String := "SXXdkdznayHTXta6vgBm5iZZtAFFQkHG8t"
/-- Gateways signer address. -/
def GatewaysNormaladdr : String := "SUK8SU1RVZKp8DDAS91r6yY5Ak9CPrNrYB"
/-- Tokens treasury address. -/
def TokensCCaddr : String := "SNNjRzhqbxa4QU3kiiMFR9s3bpL2PT9WUQ"
/-- Tokens signer address. -/
def TokensNormaladdr : String := "SQPV87aQJBFJTD9p3egd471dG1BQ4iw5SR"
/-- CClib previously published signer address (line 246). -/
def CClibNormaladdr : String := "ShWTRzwuyv1TW4yWsBZ6SDQ3sWc5rb7JMU"
/-- ImportGateway treasury address. -/
def ImportGatewayCCaddr : String := "SjKG3XK2epeXrKtzutxKBV42k6k59yERLe"
/-- ImportGateway signer address. -/
def ImportGatewayNormaladdr : String := "SaGEf7yuMBNdszSuLeERS8fpxAvy4DBUEU"

/-- Assets signer public key (hex). -/
def AssetsCChexstr : String := "02adf84e0e075cf90868bd4e3d34a03420e034719649c41f371fc70d8e33aa2702"
/-- Faucet signer public key (hex). -/
def FaucetCChexstr : String := "03682b255c40d0cde8faee381a1a50bbb89980ff24539cb8518e294d3a63cefe12"
/-- Rewards signer public key (hex). -/
def RewardsCChexstr : String := "03da60379d924c2c30ac290d2a86c2ead128cb7bd571f69211cb95356e2dcc5eb9"
/-- Dice signer public key (hex). -/
def DiceCChexstr : String := "039d966927cfdadab3ee6c56da63c21f17ea753dde4b3dfd41487103e24b27e94e"
/-- Lotto signer public key (hex). -/
def LottoCChexstr : String := "03f72d2c4db440df1e706502b09ca5fec73ffe954ea1883e4049e98da68690d98f"
/-- FSM signer public key (hex). -/
def FSMCChexstr : String := "039b52d294b413b07f3643c1a28c5467901a76562d8b39a785910ae0a0f3043810"
/-- Auction signer public key (hex). -/
def AuctionCChexstr : String := "037eefe050c14cb60ae65d5b2f69eaa1c9006826d729bc0957bdc3024e3ca1dbe6"
/-- Heir signer public key (hex). -/
def HeirCChexstr : String := "03c91bef3d7cc59c3a89286833a3446b29e52a5e773f738a1ad2b09785e5f4179e"
/-- Channels signer public key (hex). -/
def ChannelsCChexstr : String := "035debdb19b1c98c615259339500511d6216a3ffbeb28ff5655a7ef5790a12ab0b"
/-- Oracles signer public key (hex). -/
def OraclesCChexstr : String := "038c1d42db6a45a57eccb8981b078fb7857b9b496293fe299d2b8d120ac5b5691a"
/-- Prices signer public key (hex). -/
def PricesCChexstr : String := "039894cb054c0032e99e65e715b03799607aa91212a16648d391b6fa2cc52ed0cf"
/-- Pegs signer public key (hex). -/
def PegsCChexstr : String := "03c75c1de29a35e41606363b430c08be1c2dd93cf7a468229a082cc79c7b77eece"
/-- Marmara signer public key (hex). -/
def MarmaraCChexstr : String := "03afc5be570d0ff419425cfcc580cc762ab82baad88c148f5b028d7db7bfeee61d"
/-- Payments signer public key (hex). -/
def PaymentsCChexstr : String := "0358f1764f82c63abc7c7455555fd1d3184905e30e819e97667e247e5792b46856"
/-- Gateways signer public key (hex). -/
def GatewaysCChexstr : String := "03ea9c062b9652d8eff34879b504eda0717895d27597aaeb60347d65eed96ccb40"
/-- Tokens signer public key (hex). -/
def TokensCChexstr : String := "03e6191c70c9c9a28f9fd87089b9488d0e6c02fb629df64979c9cdb6b2b4a68d95"
/-- CClib seed signer public key (hex, line 247). -/
def CClibCChexstr : String := "032447d97655da079729dc024c61088ea415b22f4c15d4810ddaf2069ac6468d2f"
/-- ImportGateway signer public key (hex). -/
def ImportGatewayCChexstr : String := "0397231cfe04ea32d5fafb2206773ec9fba6e15c5a4e86064468bca195f7542714"

/-! ## Contract registry (`CClib_initcp`, `CCinit`) -/

/-- The fields of `struct CCcontract_info` that `CCinit`/`CClib_initcp`
initialize.  Function pointers (`validate`, `ismyvin`) are identified by
the name of the function assigned to them. -/
structure CCcontract_info where
  evalcode : Nat
  unspendableCCaddr : String
  normaladdr : String
  CChexstr : String
  CCpriv : List Nat
  validate : String
  ismyvin : String
deriving Repr, DecidableEq

/-- The `memset(cp, '\0', sizeof(*cp))` at the top of `CCinit`: every
field is cleared, regardless of the struct's previous contents. -/
def ccClear (_cp : CCcontract_info) : CCcontract_info :=
  { evalcode := 0, unspendableCCaddr := "", normaladdr := "", CChexstr := "",
    CCpriv := List.replicate 32 0, validate := "", ismyvin := "" }

/-- External key/script utilities consumed by the registry but implemented
outside the provided sources: `priv2addr` (secp256k1 public-key recovery
plus base58 address encoding, returning the address and the 33-byte
compressed public key, or failure), `Getscriptaddress` on a
pay-to-pubkey script, and `GetCCaddress` for the contract's eval code.
They are deterministic functions on every node; theorems quantify over
an arbitrary such environment. -/
structure KeyEnv where
  priv2addr : List Nat → Option (String × List Nat)
  getscriptaddress : List Nat → String
  getCCaddress : Nat → List Nat → String

/-- The hash-chain loop of `CClib_initcp`:
`for (i=EVAL_FIRSTUSER; i<evalcode; i++) { vcalc_sha256(0,hash,cp->CCpriv,32); memcpy(cp->CCpriv,hash,32); }`,
expressed by the remaining iteration count. -/
def cclibHashLoop : Nat → List Nat → List Nat
  | 0, priv => priv
  | n + 1, priv => cclibHashLoop n (vcalc_sha256 priv)

/-- `CClib_initcp` (CCcustom.cpp lines 264-307).  `none` models the
`return(-1)` paths.  A mismatch between the derived `normaladdr` and the
published `CClibNormaladdr` only logs a warning in the source and does
not change control flow. -/
def CClib_initcp (env : KeyEnv) (cp0 : CCcontract_info) (evalcode : Nat) :
    Option CCcontract_info :=
  let cp1 := { cp0 with
      evalcode := evalcode
      ismyvin := "IsCClibInput"
      CCpriv := CClibCCpriv }
  if evalcode = EVAL_FIRSTUSER then
    let pub33 := decode_hex CClibCChexstr
    let pk := pub33
    let cp2 := { cp1 with
        CChexstr := CClibCChexstr
        normaladdr := env.getscriptaddress pk }
    -- `strcmp(cp->normaladdr,CClibNormaladdr) != 0` only triggers LogPrintf
    let cp3 := { cp2 with unspendableCCaddr := env.getCCaddress cp2.evalcode pk }
    match env.priv2addr cp3.CCpriv with
    | some (checkaddr, check33) =>
        if check33 = pk ∧ checkaddr = cp3.normaladdr then some cp3 else none
    | none => none
  else
    let cp2 := { cp1 with CCpriv := cclibHashLoop (evalcode - EVAL_FIRSTUSER) cp1.CCpriv }
    match env.priv2addr cp2.CCpriv with
    | some (addr, pub33) =>
        some { cp2 with
            normaladdr := addr
            CChexstr := hexEncode pub33
            unspendableCCaddr := env.getCCaddress cp2.evalcode pub33 }
    | none => none

/-- The struct as it stands when `CCinit` reaches its `switch`: cleared by
the memset, with `cp->evalcode = evalcode` assigned. -/
def ccBase (cpIn : CCcontract_info) (evalcode : Nat) : CCcontract_info :=
  { ccClear cpIn with evalcode := evalcode }

/-- `CCinit` (CCcustom.cpp lines 309-467): clear the caller's struct, then
dispatch on the eval code; built-ins copy compiled-in constants, anything
else falls through to `CClib_initcp`.  `none` models the `return(0)`
not-found signal. -/
def CCinit (env : KeyEnv) (cpIn : CCcontract_info) (evalcode : Nat) :
    Option CCcontract_info :=
  if evalcode = EVAL_ASSETS then
    some { ccBase cpIn evalcode with
        unspendableCCaddr := AssetsCCaddr
        normaladdr := AssetsNormaladdr
        CChexstr := AssetsCChexstr
        CCpriv := AssetsCCpriv
        validate := "AssetsValidate"
        ismyvin := "IsAssetsInput" }
  else if evalcode = EVAL_FAUCET then
    some { ccBase cpIn evalcode with
        unspendableCCaddr := FaucetCCaddr
        normaladdr := FaucetNormaladdr
        CChexstr := FaucetCChexstr
        CCpriv := FaucetCCpriv
        validate := "FaucetValidate"
        ismyvin := "IsFaucetInput" }
  else if evalcode = EVAL_REWARDS then
    some { ccBase cpIn evalcode with
        unspendableCCaddr := RewardsCCaddr
        normaladdr := RewardsNormaladdr
        CChexstr := RewardsCChexstr
        CCpriv := RewardsCCpriv
        validate := "RewardsValidate"
        ismyvin := "IsRewardsInput" }
  else if evalcode = EVAL_DICE then
    some { ccBase cpIn evalcode with
        unspendableCCaddr := DiceCCaddr
        normaladdr := DiceNormaladdr
        CChexstr := DiceCChexstr
        CCpriv := DiceCCpriv
        validate := "DiceValidate"
        ismyvin := "IsDiceInput" }
  else if evalcode = EVAL_LOTTO then
    some { ccBase cpIn evalcode with
        unspendableCCaddr := LottoCCaddr
        normaladdr := LottoNormaladdr
        CChexstr := LottoCChexstr
        CCpriv := LottoCCpriv
        validate := "LottoValidate"
        ismyvin := "IsLottoInput" }
  else if evalcode = EVAL_FSM then
    some { ccBase cpIn evalcode with
        unspendableCCaddr := FSMCCaddr
        normaladdr := FSMNormaladdr
        CChexstr := FSMCChexstr
        CCpriv := FSMCCpriv
        validate := "FSMValidate"
        ismyvin := "IsFSMInput" }
  else if evalcode = EVAL_AUCTION then
    some { ccBase cpIn evalcode with
        unspendableCCaddr := AuctionCCaddr
        normaladdr := AuctionNormaladdr
        CChexstr := AuctionCChexstr
        CCpriv := AuctionCCpriv
        validate := "AuctionValidate"
        ismyvin := "IsAuctionInput" }
  else if evalcode = EVAL_HEIR then
    some { ccBase cpIn evalcode with
        unspendableCCaddr := HeirCCaddr
        normaladdr := HeirNormaladdr
        CChexstr := HeirCChexstr
        CCpriv := HeirCCpriv
        validate := "HeirValidate"
        ismyvin := "IsHeirInput" }
  else if evalcode = EVAL_CHANNELS then
    some { ccBase cpIn evalcode with
        unspendableCCaddr := ChannelsCCaddr
        normaladdr := ChannelsNormaladdr
        CChexstr := ChannelsCChexstr
        CCpriv := ChannelsCCpriv
        validate := "ChannelsValidate"
        ismyvin := "IsChannelsInput" }
  else if evalcode = EVAL_ORACLES then
    some { ccBase cpIn evalcode with
        unspendableCCaddr := OraclesCCaddr
        normaladdr := OraclesNormaladdr
        CChexstr := OraclesCChexstr
        CCpriv := OraclesCCpriv
        validate := "OraclesValidate"
        ismyvin := "IsOraclesInput" }
  else if evalcode = EVAL_PRICES then
    some { ccBase cpIn evalcode with
        unspendableCCaddr := PricesCCaddr
        normaladdr := PricesNormaladdr
        CChexstr := PricesCChexstr
        CCpriv := PricesCCpriv
        validate := "PricesValidate"
        ismyvin := "IsPricesInput" }
  else if evalcode = EVAL_PEGS then
    some { ccBase cpIn evalcode with
        unspendableCCaddr := PegsCCaddr
        normaladdr := PegsNormaladdr
        CChexstr := PegsCChexstr
        CCpriv := PegsCCpriv
        validate := "PegsValidate"
        ismyvin := "IsPegsInput" }
  else if evalcode = EVAL_MARMARA then
    some { ccBase cpIn evalcode with
        unspendableCCaddr := MarmaraCCaddr
        normaladdr := MarmaraNormaladdr
        CChexstr := MarmaraCChexstr
        CCpriv := MarmaraCCpriv
        validate := "MarmaraValidate"
        ismyvin := "IsMarmaraInput" }
  else if evalcode = EVAL_PAYMENTS then
    some { ccBase cpIn evalcode with
        unspendableCCaddr := PaymentsCCaddr
        normaladdr := PaymentsNormaladdr
        CChexstr := PaymentsCChexstr
        CCpriv := PaymentsCCpriv
        validate := "PaymentsValidate"
        ismyvin := "IsPaymentsInput" }
  else if evalcode = EVAL_GATEWAYS then
    some { ccBase cpIn evalcode with
        unspendableCCaddr := GatewaysCCaddr
        normaladdr := GatewaysNormaladdr
        CChexstr := GatewaysCChexstr
        CCpriv := GatewaysCCpriv
        validate := "GatewaysValidate"
        ismyvin := "IsGatewaysInput" }
  else if evalcode = EVAL_TOKENS then
    some { ccBase cpIn evalcode with
        unspendableCCaddr := TokensCCaddr
        normaladdr := TokensNormaladdr
        CChexstr := TokensCChexstr
        CCpriv := TokensCCpriv
        validate := "TokensValidate"
        ismyvin := "IsTokensInput" }
  else if evalcode = EVAL_IMPORTGATEWAY then
    some { ccBase cpIn evalcode with
        unspendableCCaddr := ImportGatewayCCaddr
        normaladdr := ImportGatewayNormaladdr
        CChexstr := ImportGatewayCChexstr
        CCpriv := ImportGatewayCCpriv
        validate := "ImportGatewayValidate"
        ismyvin := "IsImportGatewayInput" }
  else
    CClib_initcp env (ccBase cpIn evalcode) evalcode

/-! ## Concrete inputs used by witnesses and counterexamples -/

/-- An all-zero contract-info struct. -/
def ccZero : CCcontract_info :=
  { evalcode := 0, unspendableCCaddr := "", normaladdr := "", CChexstr := "",
    CCpriv := List.replicate 32 0, validate := "", ismyvin := "" }

/-- A deliberately dirty struct, exercising the `memset` clearing. -/
def ccJunk : CCcontract_info :=
  { evalcode := 99, unspendableCCaddr := "junk", normaladdr := "junk2",
    CChexstr := "ff", CCpriv := [1, 2, 3], validate := "v", ismyvin := "i" }

/-- A key environment whose recovered identity is internally consistent
(the address recovered from the private key agrees with the address
derived from the compiled-in public key) yet differs from the published
`CClibNormaladdr` constant. -/
def envMismatch : KeyEnv :=
  { priv2addr := fun _ => some ("X", decode_hex CClibCChexstr)
    getscriptaddress := fun _ => "X"
    getCCaddress := fun _ _ => "CCADDR" }

/-- The identity CCinit builds for the Oracles eval code. -/
def oraclesIdentity : CCcontract_info :=
  { evalcode := EVAL_ORACLES, unspendableCCaddr := OraclesCCaddr,
    normaladdr := OraclesNormaladdr, CChexstr := OraclesCChexstr,
    CCpriv := OraclesCCpriv, validate := "OraclesValidate",
    ismyvin := "IsOraclesInput" }

/-- The identity CCinit builds for the Gateways eval code. -/
def gatewaysIdentity : CCcontract_info :=
  { evalcode := EVAL_GATEWAYS, unspendableCCaddr := GatewaysCCaddr,
    normaladdr := GatewaysNormaladdr, CChexstr := GatewaysCChexstr,
    CCpriv := GatewaysCCpriv, validate := "GatewaysValidate",
    ismyvin := "IsGatewaysInput" }

/-! ## Registry lemmas -/

/-- The hash-chain loop is iterated SHA-256. -/
theorem cclibHashLoop_eq_iterate (n : Nat) (p : List Nat) :
    cclibHashLoop n p = vcalc_sha256^[n] p := by
  induction n generalizing p with
  | zero => rfl
  | succ k ih => rw [cclibHashLoop, Function.iterate_succ_apply, ih]

/-- For eval codes in the user range, `CCinit` skips every built-in case
and falls through to `CClib_initcp`. -/
theorem CCinit_user_range (env : KeyEnv) (cpIn : CCcontract_info) (e : Nat)
    (h : e ≤ EVAL_LASTUSER) :
    CCinit env cpIn e = CClib_initcp env (ccBase cpIn e) e := by
  have h' : e ≤ 127 := h
  have n1 : ¬ (e = EVAL_ASSETS) := by simp only [EVAL_ASSETS]; omega
  have n2 : ¬ (e = EVAL_FAUCET) := by simp only [EVAL_FAUCET]; omega
  have n3 : ¬ (e = EVAL_REWARDS) := by simp only [EVAL_REWARDS]; omega
  have n4 : ¬ (e = EVAL_DICE) := by simp only [EVAL_DICE]; omega
  have n5 : ¬ (e = EVAL_LOTTO) := by simp only [EVAL_LOTTO]; omega
  have n6 : ¬ (e = EVAL_FSM) := by simp only [EVAL_FSM]; omega
  have n7 : ¬ (e = EVAL_AUCTION) := by simp only [EVAL_AUCTION]; omega
  have n8 : ¬ (e = EVAL_HEIR) := by simp only [EVAL_HEIR]; omega
  have n9 : ¬ (e = EVAL_CHANNELS) := by simp only [EVAL_CHANNELS]; omega
  have n10 : ¬ (e = EVAL_ORACLES) := by simp only [EVAL_ORACLES]; omega
  have n11 : ¬ (e = EVAL_PRICES) := by simp only [EVAL_PRICES]; omega
  have n12 : ¬ (e = EVAL_PEGS) := by simp only [EVAL_PEGS]; omega
  have n13 : ¬ (e = EVAL_MARMARA) := by simp only [EVAL_MARMARA]; omega
  have n14 : ¬ (e = EVAL_PAYMENTS) := by simp only [EVAL_PAYMENTS]; omega
  have n15 : ¬ (e = EVAL_GATEWAYS) := by simp only [EVAL_GATEWAYS]; omega
  have n16 : ¬ (e = EVAL_TOKENS) := by simp only [EVAL_TOKENS]; omega
  have n17 : ¬ (e = EVAL_IMPORTGATEWAY) := by simp only [EVAL_IMPORTGATEWAY]; omega
  unfold CCinit
  rw [if_neg n1, if_neg n2, if_neg n3, if_neg n4, if_neg n5, if_neg n6, if_neg n7,
    if_neg n8, if_neg n9, if_neg n10, if_neg n11, if_neg n12, if_neg n13, if_neg n14,
    if_neg n15, if_neg n16, if_neg n17]

/-- The private key `CClib_initcp` stores for a user-range eval code is
the seed hashed `e - EVAL_FIRSTUSER` times. -/
theorem CClib_initcp_CCpriv (env : KeyEnv) (cpIn : CCcontract_info) (e : Nat)
    (r : CCcontract_info) (hr : CClib_initcp env cpIn e = some r) :
    r.CCpriv = vcalc_sha256^[e - EVAL_FIRSTUSER] CClibCCpriv := by
  unfold CClib_initcp at hr
  by_cases he : e = EVAL_FIRSTUSER
  · rw [if_pos he] at hr
    cases hp : env.priv2addr CClibCCpriv with
    | none => simp [hp] at hr
    | some pr =>
        obtain ⟨checkaddr, check33⟩ := pr
        simp only [hp] at hr
        by_cases hc : check33 = decode_hex CClibCChexstr ∧
            checkaddr = env.getscriptaddress (decode_hex CClibCChexstr)
        · simp only [hc, if_pos, and_self] at hr
          cases hr
          subst he
          simp
        · simp [hc] at hr
  · rw [if_neg he] at hr
    cases hp : env.priv2addr (cclibHashLoop (e - EVAL_FIRSTUSER) CClibCCpriv) with
    | none => simp [hp] at hr
    | some pr =>
        obtain ⟨addr, pub33⟩ := pr
        simp only [hp] at hr
        cases hr
        simp [cclibHashLoop_eq_iterate]

/-- Closed form of the hash-chain branch of `CClib_initcp`. -/
theorem CClib_initcp_else (env : KeyEnv) (cpIn : CCcontract_info) (e : Nat)
    (hne : e ≠ EVAL_FIRSTUSER) :
    CClib_initcp env cpIn e =
      match env.priv2addr (vcalc_sha256^[e - EVAL_FIRSTUSER] CClibCCpriv) with
      | some (addr, pub33) =>
          some { evalcode := e, unspendableCCaddr := env.getCCaddress e pub33,
                 normaladdr := addr, CChexstr := hexEncode pub33,
                 CCpriv := vcalc_sha256^[e - EVAL_FIRSTUSER] CClibCCpriv,
                 validate := cpIn.validate, ismyvin := "IsCClibInput" }
      | none => none := by
  unfold CClib_initcp
  rw [if_neg hne]
  dsimp only
  rw [cclibHashLoop_eq_iterate]

/-! ## Claim theorems: address derivation (C1, C2, C6, C9, C10) -/

/-- C1: for every user-defined eval code `e` greater than `EVAL_FIRSTUSER`,
initializing the contract (`CCinit` falling through to `CClib_initcp`)
sets the contract private key to SHA-256 applied exactly
`e - EVAL_FIRSTUSER` times to the compiled-in seed `CClibCCpriv`, and the
signer address and public key published in the resulting identity are the
ones `priv2addr` recovers from that private key. -/
theorem C1_user_evalcode_hashchain_key (env : KeyEnv) (cpIn : CCcontract_info)
    (e : Nat) (he : EVAL_FIRSTUSER < e) (hle : e ≤ EVAL_LASTUSER)
    (addr : String) (pub : List Nat)
    (hp : env.priv2addr (vcalc_sha256^[e - EVAL_FIRSTUSER] CClibCCpriv) =
      some (addr, pub)) :
    (CCinit env cpIn e).map (fun cp => (cp.CCpriv, cp.normaladdr, cp.CChexstr)) =
      some (vcalc_sha256^[e - EVAL_FIRSTUSER] CClibCCpriv, addr, hexEncode pub) := by
  rw [CCinit_user_range env cpIn e hle,
    CClib_initcp_else env (ccBase cpIn e) e (Nat.ne_of_gt he), hp]
  rfl

/-- C1 witness: a concrete run at eval code 18 with a concrete recovery
environment. -/
theorem C1_user_evalcode_hashchain_key_witness :
    EVAL_FIRSTUSER < 18 ∧ 18 ≤ EVAL_LASTUSER ∧
    envMismatch.priv2addr (vcalc_sha256^[18 - EVAL_FIRSTUSER] CClibCCpriv) =
      some ("X", decode_hex CClibCChexstr) ∧
    (CCinit envMismatch ccZero 18).map
        (fun cp => (cp.CCpriv, cp.normaladdr, cp.CChexstr)) =
      some (vcalc_sha256^[18 - EVAL_FIRSTUSER] CClibCCpriv, "X",
        hexEncode (decode_hex CClibCChexstr)) :=
  ⟨by decide, by decide, rfl,
   C1_user_evalcode_hashchain_key envMismatch ccZero 18 (by decide) (by decide)
     "X" (decode_hex CClibCChexstr) rfl⟩

/-- C2 counterexample: with compiled-in key material whose internally
consistent recovered address "X" differs from the published
`CClibNormaladdr`, `CCinit` still returns an initialized contract for
`EVAL_FIRSTUSER` — the published-address comparison only logs a warning,
so the claim that any such mismatch yields the not-found signal is false. -/
theorem C2_published_mismatch_counterexample :
    (CCinit envMismatch ccZero EVAL_FIRSTUSER).map (fun cp => cp.normaladdr) =
      some "X" ∧
    "X" ≠ CClibNormaladdr ∧
    CCinit envMismatch ccZero EVAL_FIRSTUSER ≠ none := by
  refine ⟨by decide, by decide, by decide⟩

/-- C2 amended: for `EVAL_FIRSTUSER`, `CCinit` returns the not-found
signal exactly when `priv2addr` fails on the seed private key or the
identity it recovers mismatches the one derived from the compiled-in
public key `CClibCChexstr`; a mismatch against the separately published
`CClibNormaladdr` is only logged and does not refuse initialization. -/
theorem C2_firstuser_refusal_condition (env : KeyEnv) (cpIn : CCcontract_info) :
    CCinit env cpIn EVAL_FIRSTUSER = none ↔
      (match env.priv2addr CClibCCpriv with
       | some (checkaddr, check33) =>
           ¬(check33 = decode_hex CClibCChexstr ∧
             checkaddr = env.getscriptaddress (decode_hex CClibCChexstr))
       | none => True) := by
  rw [CCinit_user_range env cpIn EVAL_FIRSTUSER (by decide)]
  unfold CClib_initcp
  rw [if_pos rfl]
  dsimp only
  cases hp : env.priv2addr CClibCCpriv with
  | none => simp
  | some pr =>
      obtain ⟨checkaddr, check33⟩ := pr
      by_cases hc : check33 = decode_hex CClibCChexstr ∧
          checkaddr = env.getscriptaddress (decode_hex CClibCChexstr)
      · simp [hc]
      · simp [hc]

/-- C6: for user-defined eval codes `e1 < e2`, continuing the SHA-256
hash chain for `e2 - e1` further steps from the private key derived for
`e1` yields exactly the private key derived for `e2` from the seed. -/
theorem C6_hashchain_composition (env : KeyEnv) (cpA cpB : CCcontract_info)
    (e1 e2 : Nat) (r1 r2 : CCcontract_info)
    (h1 : EVAL_FIRSTUSER ≤ e1) (h12 : e1 < e2) (h2 : e2 ≤ EVAL_LASTUSER)
    (hr1 : CCinit env cpA e1 = some r1) (hr2 : CCinit env cpB e2 = some r2) :
    vcalc_sha256^[e2 - e1] r1.CCpriv = r2.CCpriv := by
  rw [CCinit_user_range env cpA e1 (le_trans (le_of_lt h12) h2)] at hr1
  rw [CCinit_user_range env cpB e2 h2] at hr2
  rw [CClib_initcp_CCpriv env (ccBase cpA e1) e1 r1 hr1,
    CClib_initcp_CCpriv env (ccBase cpB e2) e2 r2 hr2,
    ← Function.iterate_add_apply]
  congr 1
  omega

/-- C6 witness: eval codes 17 and 19 under a concrete environment. -/
theorem C6_hashchain_composition_witness :
    EVAL_FIRSTUSER ≤ 17 ∧ (17 : Nat) < 19 ∧ 19 ≤ EVAL_LASTUSER ∧
    ∃ r1 r2, CCinit envMismatch ccZero 17 = some r1 ∧
      CCinit envMismatch ccZero 19 = some r2 ∧
      vcalc_sha256^[19 - 17] r1.CCpriv = r2.CCpriv := by
  have hs1 : (CCinit envMismatch ccZero 17).isSome = true := by decide
  have hs2 : (CCinit envMismatch ccZero 19).isSome = true := by decide
  refine ⟨by decide, by decide, by decide,
    (CCinit envMismatch ccZero 17).get hs1, (CCinit envMismatch ccZero 19).get hs2,
    (Option.some_get hs1).symm, (Option.some_get hs2).symm, ?_⟩
  exact C6_hashchain_composition envMismatch ccZero ccZero 17 19 _ _
    (by decide) (by decide) (by decide)
    (Option.some_get hs1).symm (Option.some_get hs2).symm

/-- C9: address derivation is deterministic — two invocations of `CCinit`
for the same eval code, with arbitrary (possibly different) prior struct
contents, produce bit-identical `unspendableCCaddr`, `normaladdr`,
`CChexstr` and `CCpriv` fields in the returned identity. -/
theorem C9_CCinit_deterministic (env : KeyEnv) (cpA cpB : CCcontract_info)
    (e : Nat) (r1 r2 : CCcontract_info)
    (h1 : CCinit env cpA e = some r1) (h2 : CCinit env cpB e = some r2) :
    r1.unspendableCCaddr = r2.unspendableCCaddr ∧
    r1.normaladdr = r2.normaladdr ∧
    r1.CChexstr = r2.CChexstr ∧ r1.CCpriv = r2.CCpriv := by
  have h : CCinit env cpA e = CCinit env cpB e := rfl
  rw [h1, h2] at h
  cases h
  exact ⟨rfl, rfl, rfl, rfl⟩

/-- C9 witness: two runs for the Oracles eval code, one from a zeroed
struct and one from a dirty struct, produce the same identity. -/
theorem C9_CCinit_deterministic_witness :
    CCinit envMismatch ccZero EVAL_ORACLES = some oraclesIdentity ∧
    CCinit envMismatch ccJunk EVAL_ORACLES = some oraclesIdentity ∧
    (oraclesIdentity.unspendableCCaddr = oraclesIdentity.unspendableCCaddr ∧
     oraclesIdentity.normaladdr = oraclesIdentity.normaladdr ∧
     oraclesIdentity.CChexstr = oraclesIdentity.CChexstr ∧
     oraclesIdentity.CCpriv = oraclesIdentity.CCpriv) :=
  ⟨rfl, rfl,
   C9_CCinit_deterministic envMismatch ccZero ccJunk EVAL_ORACLES
     oraclesIdentity oraclesIdentity rfl rfl⟩

/-- C10: the 32-byte private key compiled in for the Oracles eval code is
bit-identical to the one compiled in for the Gateways eval code, so the
two initialized identities share their `CCpriv` field while their
addresses and public keys differ. -/
theorem C10_oracles_gateways_shared_key (env : KeyEnv)
    (cpA cpB : CCcontract_info) :
    CCinit env cpA EVAL_ORACLES = some oraclesIdentity ∧
    CCinit env cpB EVAL_GATEWAYS = some gatewaysIdentity ∧
    oraclesIdentity.CCpriv = gatewaysIdentity.CCpriv ∧
    oraclesIdentity.unspendableCCaddr ≠ gatewaysIdentity.unspendableCCaddr ∧
    oraclesIdentity.normaladdr ≠ gatewaysIdentity.normaladdr ∧
    oraclesIdentity.CChexstr ≠ gatewaysIdentity.CChexstr :=
  ⟨rfl, rfl, by decide, by decide, by decide, by decide⟩

/-! ## C string parsing helpers used by the RPC glue -/

/-- Accumulate a leading decimal digit run, as `atoi` does after sign
handling; stops at the first non-digit. -/
def atoiDigits : List Char → Nat → Nat
  | c :: rest, acc =>
      if '0' ≤ c ∧ c ≤ '9' then atoiDigits rest (acc * 10 + (c.toNat - Char.toNat '0'))
      else acc
  | [], acc => acc

/-- C `atoi`: skip leading whitespace, read an optional sign, then the
longest digit prefix.  (The C function's int overflow is undefined; all
inputs considered here are small.) -/
def atoi (s : String) : Int :=
  match s.toList.dropWhile (fun c =>
      c = ' ' ∨ c = '\t' ∨ c = '\n' ∨ c = '\r' ∨ c = '\x0b' ∨ c = '\x0c') with
  | '-' :: rest => -(atoiDigits rest 0 : Int)
  | '+' :: rest => (atoiDigits rest 0 : Int)
  | cs => (atoiDigits cs 0 : Int)

/-- Whether a character is a hexadecimal digit. -/
def isHexChar (c : Char) : Bool :=
  ('0' ≤ c ∧ c ≤ '9') ∨ ('a' ≤ c ∧ c ≤ 'f') ∨ ('A' ≤ c ∧ c ≤ 'F')

/-- Modelled from the spec: `Parseuint256` (komodo utility code, not under
src/) decodes a 64-character hexadecimal transaction id; anything else
yields the null (zero) id.  The id value is the decoded bytes read as one
number (byte order is irrelevant here, only nullness is tested). -/
def Parseuint256 (s : String) : Nat :=
  if s.length = 64 ∧ s.toList.all isHexChar then
    (hexPairs s.toList).foldl (fun acc b => acc * 256 + b) 0
  else 0

/-! ## Prices fee macro and leverage bound (C4, C8) -/

/-- `PRICES_MAXLEVERAGE` (CCPrices.h line 29). -/
def PRICES_MAXLEVERAGE : Int := 777

/-- `PRICES_TXFEE` (CCPrices.h line 28). -/
def PRICES_TXFEE : Int := 10000

/-- Two's-complement wraparound to a signed 64-bit value.  Signed overflow
is undefined behaviour in C; the ubiquitous two's-complement machine
behaviour of `int64_t` (`CAmount`) arithmetic is what is modelled. -/
def wrap64 (x : Int) : Int :=
  (x + 9223372036854775808) % 18446744073709551616 - 9223372036854775808

/-- Two's-complement wraparound to a signed 16-bit value, the
`(int16_t)atoi(...)` cast in `pricesbet`. -/
def wrap16 (x : Int) : Int := (x + 32768) % 65536 - 32768

/-- `PRICES_SUBREVSHAREFEE(amount) = ((amount) * 199 / 200)`
(CCPrices.h line 52), instantiated at the `CAmount`/`int64_t` type of its
call sites: a 64-bit product followed by C truncating division. -/
def PRICES_SUBREVSHAREFEE (amount : Int) : Int :=
  Int.tdiv (wrap64 (amount * 199)) 200

/-- Modelled from the spec: the body of `PricesBet` lives in CCPrices.cpp,
which is not under src/; per the spec it rejects a leverage whose
magnitude exceeds `PRICES_MAXLEVERAGE` before any transaction is built.
The construction performed after the check is an opaque `builder`. -/
def PricesBet {α : Type} (builder : Int → Int → List String → Except String α)
    (txfee amount leverage : Int) (synthetic : List String) :
    Except String α :=
  let _ := txfee
  if PRICES_MAXLEVERAGE < |leverage| then .error "invalid leverage"
  else builder amount leverage synthetic

/-- `pricesbet` RPC glue (blockchain.cpp lines 2006-2036): three params
required, `-ac_cbopret` required, amount parsed by `atof(...)*COIN`
(floating point, abstracted as `parseAmount`), leverage parsed as
`(int16_t)atoi(...)` and rejected when zero, then `PricesBet` is invoked
with the split synthetic expression. -/
def pricesbet {α : Type} (cbopret : Bool) (parseAmount : String → Int)
    (splitter : String → List String)
    (builder : Int → Int → List String → Except String α)
    (params : List String) : Except String α :=
  if params.length ≠ 3 then .error "pricesbet amount leverage synthetic-expression"
  else if cbopret = false then .error "only -ac_cbopret chains have prices"
  else
    let amount := parseAmount (params.getD 0 "")
    let leverage := wrap16 (atoi (params.getD 1 ""))
    if leverage = 0 then .error "invalid leverage"
    else PricesBet builder PRICES_TXFEE amount leverage (splitter (params.getD 2 ""))

/-- `pricesrekt` RPC glue (blockchain.cpp lines 2103-2122): two params
required, `-ac_cbopret` required, the bet txid parsed from params[0] and
rejected when null; the reference height is then parsed — from
`params[0]`, the txid string, exactly as the source does — and forwarded
to the `PricesRekt` builder (CCPrices.cpp, opaque here). -/
def pricesrekt {α : Type} (cbopret : Bool)
    (pricesRektBuilder : Int → Nat → Int → α)
    (params : List String) : Except String α :=
  if params.length ≠ 2 then .error "pricesrekt bettxid height"
  else if cbopret = false then .error "only -ac_cbopret chains have prices"
  else
    let bettxid := Parseuint256 (params.getD 0 "")
    if bettxid = 0 then .error "invalid bettxid"
    else
      let height := atoi (params.getD 0 "")
      .ok (pricesRektBuilder PRICES_TXFEE bettxid height)

/-! ## Claim theorems: leverage bound, rekt height, fee (C4, C5, C8) -/

/-- C4: `pricesbet` rejects a zero leverage and a leverage whose
magnitude exceeds `PRICES_MAXLEVERAGE` for every input, and when it
rejects, the result is independent of the transaction builder — the
rejection happens before any transaction is built. -/
theorem C4_leverage_bound {α : Type} (parseAmount : String → Int)
    (splitter : String → List String)
    (builder builder' : Int → Int → List String → Except String α)
    (params : List String) (hlen : params.length = 3)
    (hlev : wrap16 (atoi (params.getD 1 "")) = 0 ∨
      PRICES_MAXLEVERAGE < |wrap16 (atoi (params.getD 1 ""))|) :
    pricesbet true parseAmount splitter builder params = .error "invalid leverage" ∧
    pricesbet true parseAmount splitter builder params =
      pricesbet true parseAmount splitter builder' params := by
  have key : ∀ b : Int → Int → List String → Except String α,
      pricesbet true parseAmount splitter b params = .error "invalid leverage" := by
    intro b
    unfold pricesbet PricesBet
    rw [if_neg (by simp [hlen]), if_neg (by simp)]
    by_cases hz : wrap16 (atoi (params.getD 1 "")) = 0
    · rw [if_pos hz]
    · rw [if_neg hz, if_pos (hlev.resolve_left hz)]
  exact ⟨key builder, (key builder).trans (key builder').symm⟩

/-- C4 witness: leverage 1000 is rejected before any transaction is
built (scenario B). -/
theorem C4_leverage_bound_witness :
    (["100", "1000", "BTC_USD,1"] : List String).length = 3 ∧
    (wrap16 (atoi "1000") = 0 ∨ PRICES_MAXLEVERAGE < |wrap16 (atoi "1000")|) ∧
    pricesbet true (fun _ => 100) (fun s => [s])
        (fun _ _ _ => Except.ok (0 : Nat)) ["100", "1000", "BTC_USD,1"] =
      .error "invalid leverage" :=
  ⟨rfl, by decide,
   (C4_leverage_bound (fun _ => 100) (fun s => [s]) (fun _ _ _ => Except.ok 0)
     (fun _ _ _ => Except.ok 1) ["100", "1000", "BTC_USD,1"] rfl (by decide)).1⟩

/-- C5: evaluating `pricesrekt` at a well-formed call — bet txid
`07aa00…00` (64 hex characters, non-null) with reference height
argument "777" — shows that the height forwarded to the `PricesRekt`
builder is `atoi` of the txid string (7), not the caller's second
parameter (777): the code reads `params[0]` where its own usage string
says the height is the second parameter. -/
theorem C5_rekt_height_from_txid_param {α : Type} (f : Int → Nat → Int → α) :
    pricesrekt true f
        ["07aa000000000000000000000000000000000000000000000000000000000000",
         "777"] =
      .ok (f PRICES_TXFEE
        (Parseuint256
          "07aa000000000000000000000000000000000000000000000000000000000000") 7) ∧
    atoi "777" = 777 ∧ (7 : Int) ≠ 777 := by
  refine ⟨rfl, by decide, by decide⟩

/-- C8 counterexample: quantified over every non-negative `int64` amount,
the fee macro is not the exact truncating `amount*199/200`: at
`amount = 2^62` the 64-bit product wraps and the macro returns a negative
value. -/
theorem C8_subrevsharefee_counterexample :
    (0 : Int) ≤ 2 ^ 62 ∧
    PRICES_SUBREVSHAREFEE (2 ^ 62) ≠ Int.tdiv (2 ^ 62 * 199) 200 ∧
    PRICES_SUBREVSHAREFEE (2 ^ 62) < 0 := by
  refine ⟨by decide, by decide, by decide⟩

/-- C8 amended: for every non-negative amount whose 199-fold product fits
in an `int64` (which covers every representable coin amount), the fee
macro computes exactly the truncating `amount*199/200`, i.e. the net
payout is multiplied by 199/200 with the 0.5% remainder as fee. -/
theorem C8_subrevsharefee_exact (amount : Int) (h0 : 0 ≤ amount)
    (hov : amount * 199 < 2 ^ 63) :
    PRICES_SUBREVSHAREFEE amount = Int.tdiv (amount * 199) 200 := by
  unfold PRICES_SUBREVSHAREFEE wrap64
  have h1 : (0 : Int) ≤ amount * 199 := by positivity
  have h2 : (0 : Int) ≤ amount * 199 + 9223372036854775808 := by omega
  have h3 : amount * 199 + 9223372036854775808 < 18446744073709551616 := by
    omega
  rw [Int.emod_eq_of_lt h2 h3]
  congr 1
  omega

/-- C8 amended witness: amount 1000 nets 995. -/
theorem C8_subrevsharefee_exact_witness :
    (0 : Int) ≤ 1000 ∧ (1000 : Int) * 199 < 2 ^ 63 ∧
    PRICES_SUBREVSHAREFEE 1000 = Int.tdiv (1000 * 199) 200 ∧
    PRICES_SUBREVSHAREFEE 1000 = 995 :=
  ⟨by decide, by decide,
   C8_subrevsharefee_exact 1000 (by decide) (by decide), by decide⟩

/-! ## Price pipeline (`prices` RPC, blockchain.cpp lines 1799-1922)

The chain-history accessors (`smartusd_heightpricebits`,
`smartusd_pricecorrelated`, `smartusd_priceget`, `smartusd_priceave`,
`smartusd_pricename`, `smartusd_pricemult`) are implemented outside the
provided sources and appear as an environment; the `prices` RPC glue
itself — sample loading, LCG reseeding, the correlation and smoothing
loops with their stored-value cross-checks — is embedded from the
source. -/

/-- `ASSETCHAINS_BLOCKTIME` (powerblockcoin.cpp line 28). -/
def ASSETCHAINS_BLOCKTIME : Nat := 60

/-- `PRICES_DAYWINDOW = (3600*24/ASSETCHAINS_BLOCKTIME) + 1` (CCPrices.h
line 27). -/
def PRICES_DAYWINDOW : Nat := 3600 * 24 / ASSETCHAINS_BLOCKTIME + 1

/-- `PRICES_SMOOTHWIDTH` (CCPrices.h line 30). -/
def PRICES_SMOOTHWIDTH : Nat := 1

/-- The linear-congruential reseeding step
`rngval = (rngval*11109 + 13849)` in `uint64_t` arithmetic (line 1861). -/
def lcgNext (x : Nat) : Nat := (x * 11109 + 13849) % 18446744073709551616

/-- The cross-check-and-substitute step (lines 1865-1872 and 1880-1887):
when a stored on-chain datapoint exists and its entry at `idx` differs
from the freshly computed value, the stored entry replaces the fresh
value; otherwise the fresh value stands.  Index 1 holds the stored
correlated price, index 2 the stored smoothed price. -/
def priceCheckSubst (stored : Option (List Int)) (idx : Nat) (fresh : Int) : Int :=
  match stored with
  | some checkprices =>
      if checkprices.getD idx 0 ≠ fresh then checkprices.getD idx 0 else fresh
  | none => fresh

/-- The chain-state accessors used by the `prices` RPC, all deterministic
functions of committed chain history:
`heightpricebits height = some (seed, rawPriceVector)` when the block
carries price data (`none` models a non-positive return),
`pricecorrelated rngval j window` the correlation primitive (its constant
arguments `1, 0, PRICES_SMOOTHWIDTH` folded in), `priceget j height` the
stored datapoint array (`checkprices[0..]`, `none` models a negative
return), `priceave tmpbuf window = (smoothed, tmpbuf')` with its scratch
buffer threaded, `pricename`/`pricemult` the feed metadata. -/
structure PricesEnv where
  cbopret : Bool
  chainHeight : Nat
  heightpricebits : Nat → Option (Nat × List Nat)
  pricename : Nat → Option String
  pricecorrelated : Nat → Nat → List Nat → Int
  priceget : Nat → Nat → Option (List Int)
  priceave : List Int → List Int → Int × List Int
  pricemult : Nat → Int

/-- `if (maxsamples < 1) maxsamples = 1` applied to the parsed parameter. -/
def pricesClampMax (m : Int) : Nat := if m < 1 then 1 else m.toNat

/-- `width = maxsamples+2*PRICES_DAYWINDOW+PRICES_SMOOTHWIDTH` (line 1815). -/
def pricesWidthOf (maxsamples : Nat) : Nat :=
  maxsamples + 2 * PRICES_DAYWINDOW + PRICES_SMOOTHWIDTH

/-- The sample-loading loop (lines 1822-1839):
`for (ht=nextheight-1,i=0; i<width && ht>2; i++,ht--)`, collecting each
height's raw price vector, with the loop's error exits; the fuel argument
is the remaining width. -/
def pricesLoadLoop (env : PricesEnv) (numpricefeeds : Nat) :
    Nat → Nat → Except String (List (List Nat))
  | _, 0 => .ok []
  | ht, Nat.succ fuel =>
      if ht ≤ 2 then .ok []
      else if env.chainHeight < ht then .error "Block height out of range"
      else
        match env.heightpricebits ht with
        | some (_, rawprices) =>
            if rawprices.length = numpricefeeds then
              match pricesLoadLoop env numpricefeeds (ht - 1) fuel with
              | .ok rest => .ok (rawprices :: rest)
              | .error e => .error e
            else .error "numprices != first numprices"
        | none => .error "no komodo_rawprices found"

/-- Error-propagating sequencing, the shape of the C code's consecutive
statements with `throw` exits. -/
def exBind {beta gamma : Type} (x : Except String beta)
    (f : beta → Except String gamma) : Except String gamma :=
  match x with
  | .ok v => f v
  | .error e => .error e

/-- Sequencing after a success. -/
theorem exBind_ok {beta gamma : Type} (v : beta)
    (f : beta → Except String gamma) : exBind (.ok v) f = f v := rfl

/-- Sequencing after a failure. -/
theorem exBind_error {beta gamma : Type} (e : String)
    (f : beta → Except String gamma) :
    exBind (Except.error e) f = .error e := rfl

/-- One feed's correlation loop (lines 1858-1874): per sample advance the
LCG once, call the correlation primitive on the feed's row from the
sample offset onward, abort when it is negative, then cross-check the
result against the stored correlated price (`checkprices[1]`).  Arguments
are the sample index, the rng state and the remaining iteration count. -/
def corrLoop (env : PricesEnv) (j ht1 : Nat) (row : List Nat) :
    Nat → Nat → Nat → Except String (Nat × List Int)
  | _, rng, 0 => .ok (rng, [])
  | i, rng, Nat.succ n =>
      let rng1 := lcgNext rng
      let c0 := env.pricecorrelated rng1 j (row.drop i)
      if c0 < 0 then .error "null correlated price"
      else
        let c := priceCheckSubst (env.priceget j (ht1 - i)) 1 c0
        exBind (corrLoop env j ht1 row (i + 1) rng1 n)
          (fun pr => .ok (pr.1, c :: pr.2))

/-- One feed's smoothing and output loop (lines 1876-1894): per sample
smooth the (already substituted) correlated series with the scratch
buffer threaded through `smartusd_priceave`, cross-check against the
stored smoothed price (`checkprices[2]`), and emit the
(raw·mult, correlated, smoothed) triple. -/
def smoothLoop (env : PricesEnv) (j ht1 : Nat) (row : List Nat)
    (correlated : List Int) : Nat → List Int → Nat → List (Int × Int × Int)
  | _, _, 0 => []
  | i, tmpbuf, Nat.succ n =>
      let pr := env.priceave tmpbuf (correlated.drop i)
      let s := priceCheckSubst (env.priceget j (ht1 - i)) 2 pr.1
      (((row.getD i 0 : Nat) : Int) * env.pricemult j, correlated.getD i 0, s) ::
        smoothLoop env j ht1 row correlated (i + 1) pr.2 n

/-- Processing of one named feed (the `numsamples >= width` test and the
two loops, lines 1856-1906): with a full window, run the correlation loop
over `min(maxsamples+PRICES_DAYWINDOW+PRICES_SMOOTHWIDTH, numsamples)`
samples into the `calloc`-zeroed correlated array, then the smoothing
loop over `min(maxsamples, numsamples)` samples; otherwise emit raw
prices only, leaving the rng untouched. -/
def pricesFeed (env : PricesEnv) (ht1 width numsamples maxsamples : Nat)
    (row : List Nat) (j rng : Nat) : Except String (Nat × List (List Int)) :=
  if width ≤ numsamples then
    exBind (corrLoop env j ht1 row 0 rng
        (min (maxsamples + PRICES_DAYWINDOW + PRICES_SMOOTHWIDTH) numsamples))
      (fun pr =>
        .ok (pr.1,
          (smoothLoop env j ht1 row (pr.2 ++ List.replicate (width - pr.2.length) 0) 0
            (List.replicate (2 * PRICES_DAYWINDOW) 0)
            (min maxsamples numsamples)).map fun t => [t.1, t.2.1, t.2.2]))
  else
    .ok (rng, (List.range (min maxsamples numsamples)).map fun i =>
      [((row.getD i 0 : Nat) : Int) * env.pricemult j])

/-- The feed loop `for (j=1; j<numpricefeeds; j++)` (lines 1850-1910):
a feed without a name yields an "error" item and processes no samples;
otherwise the feed's row (column `j` of the loaded samples, zero-padded
to `width` by the `calloc`) is processed with the rng state threaded from
feed to feed.  The fuel argument is the number of feeds left. -/
def pricesFeedsLoop (env : PricesEnv) (ht1 width numsamples maxsamples : Nat)
    (samples : List (List Nat)) :
    Nat → Nat → Nat → Except String (Nat × List (String × List (List Int)))
  | _, rng, 0 => .ok (rng, [])
  | j, rng, Nat.succ n =>
      match env.pricename j with
      | some nm =>
          exBind (pricesFeed env ht1 width numsamples maxsamples
              (samples.map (fun v => v.getD j 0) ++
                List.replicate (width - numsamples) 0) j rng)
            (fun pr =>
              exBind (pricesFeedsLoop env ht1 width numsamples maxsamples samples
                  (j + 1) pr.1 n)
                (fun qr => .ok (qr.1, (nm, pr.2) :: qr.2)))
      | none =>
          exBind (pricesFeedsLoop env ht1 width numsamples maxsamples samples
              (j + 1) rng n)
            (fun qr => .ok (qr.1, ("error", []) :: qr.2))

/-- The fields of the `prices` RPC result object. -/
structure PricesResult where
  firstheight : Int
  timestamps : List Nat
  pricefeeds : List (String × List (List Int))
  seed : Nat
  height : Nat
  maxsamples : Nat
  width : Nat
  daywindow : Nat
  numpricefeeds : Nat
deriving Repr, DecidableEq

/-- The `prices` RPC (lines 1799-1922): clamp `maxsamples`, check the
day window, read the seed and feed count at `nextheight-1`, load up to
`width` samples, emit the timestamps (feed 0), then run the per-feed
correlation/smoothing loops threading the rng from the chain seed. -/
def pricesRpc (env : PricesEnv) (maxsamples0 : Int) (nextheight : Nat) :
    Except String PricesResult :=
  if env.cbopret = false then .error "only -ac_cbopret chains have prices"
  else
    if PRICES_DAYWINDOW < 7 then .error "daywindow is too small"
    else
      match env.heightpricebits (nextheight - 1) with
      | none => .error "illegal numpricefeeds"
      | some (seed, raw0) =>
          if raw0.length = 0 then .error "illegal numpricefeeds"
          else
            exBind (pricesLoadLoop env raw0.length (nextheight - 1)
                (pricesWidthOf (pricesClampMax maxsamples0)))
              (fun samples =>
                exBind (pricesFeedsLoop env (nextheight - 1)
                    (pricesWidthOf (pricesClampMax maxsamples0)) samples.length
                    (pricesClampMax maxsamples0) samples 1 seed
                    (raw0.length - 1))
                  (fun pr =>
                    .ok { firstheight := (nextheight : Int) - 1 - samples.length,
                          timestamps := (List.range (pricesClampMax maxsamples0)).map
                            (fun i => (samples.map (fun (v : List Nat) => v.getD 0 0) ++
                              List.replicate
                                (pricesWidthOf (pricesClampMax maxsamples0) -
                                  samples.length) 0).getD i 0),
                          pricefeeds := pr.2,
                          seed := seed, height := nextheight - 1,
                          maxsamples := pricesClampMax maxsamples0,
                          width := pricesWidthOf (pricesClampMax maxsamples0),
                          daywindow := PRICES_DAYWINDOW,
                          numpricefeeds := raw0.length }))

/-! ## Price pipeline lemmas -/

/-- Reading a mapped list with a default, within bounds. -/
theorem getD_map_lt {alpha beta : Type} (f : alpha → beta) (l : List alpha) (k : Nat)
    (hk : k < l.length) (d : alpha) (d2 : beta) :
    (l.map f).getD k d2 = f (l.getD k d) := by
  rw [List.getD_eq_getElem?_getD, List.getD_eq_getElem?_getD, List.getElem?_map,
    List.getElem?_eq_getElem hk]
  rfl

/-- What a successful correlation loop returns: the rng advanced exactly
once per sample, one entry per sample, and the k-th entry the substituted
correlation computed from the (k+1)-st LCG iterate of the incoming rng. -/
theorem corrLoop_spec (env : PricesEnv) (j ht1 : Nat) (row : List Nat) :
    ∀ (n i rng rngf : Nat) (cs : List Int),
      corrLoop env j ht1 row i rng n = .ok (rngf, cs) →
      rngf = lcgNext^[n] rng ∧ cs.length = n ∧
      ∀ k, k < n →
        cs.getD k 0 = priceCheckSubst (env.priceget j (ht1 - (i + k))) 1
          (env.pricecorrelated (lcgNext^[k + 1] rng) j (row.drop (i + k))) := by
  intro n
  induction n with
  | zero =>
      intro i rng rngf cs h
      simp only [corrLoop] at h
      cases h
      exact ⟨rfl, rfl, fun k hk => absurd hk (Nat.not_lt_zero k)⟩
  | succ m ih =>
      intro i rng rngf cs h
      simp only [corrLoop] at h
      by_cases hc : env.pricecorrelated (lcgNext rng) j (row.drop i) < 0
      · rw [if_pos hc] at h
        cases h
      · rw [if_neg hc] at h
        cases hrec : corrLoop env j ht1 row (i + 1) (lcgNext rng) m with
        | error e =>
            rw [hrec] at h
            simp only [exBind_error] at h
            cases h
        | ok pr =>
            rw [hrec] at h
            simp only [exBind_ok] at h
            obtain ⟨rngr, rest⟩ := pr
            injection h with h0
            injection h0 with h4 h5
            subst h4
            subst h5
            obtain ⟨h1, h2, h3⟩ := ih (i + 1) (lcgNext rng) rngr rest hrec
            refine ⟨?_, by simp [h2], ?_⟩
            · rw [h1, ← Function.iterate_succ_apply]
            · intro k hk
              cases k with
              | zero =>
                  simp only [List.getD_cons_zero, Nat.add_zero]
                  rfl
              | succ k2 =>
                  have hk2 : k2 < m := Nat.lt_of_succ_lt_succ hk
                  simp only [List.getD_cons_succ]
                  rw [h3 k2 hk2]
                  have e1 : i + 1 + k2 = i + (k2 + 1) := by omega
                  have e2 : lcgNext^[k2 + 1] (lcgNext rng) = lcgNext^[k2 + 1 + 1] rng := by
                    rw [← Function.iterate_succ_apply]
                  rw [e1, e2]

/-- The freshly smoothed value `smartusd_priceave` produces at the k-th
step of the smoothing loop started from state `(i, tmpbuf)`.  The
substitution never feeds back into the scratch buffer, so the replay is
independent of the stored datapoints. -/
def smoothFresh (env : PricesEnv) (correlated : List Int) :
    Nat → List Int → Nat → Int
  | i, tmpbuf, 0 => (env.priceave tmpbuf (correlated.drop i)).1
  | i, tmpbuf, Nat.succ k =>
      smoothFresh env correlated (i + 1) (env.priceave tmpbuf (correlated.drop i)).2 k

/-- What the smoothing loop emits: one triple per sample, carrying the
raw price, the (already substituted) correlated price, and the smoothed
price after its cross-check substitution. -/
theorem smoothLoop_spec (env : PricesEnv) (j ht1 : Nat) (row : List Nat)
    (correlated : List Int) :
    ∀ (n i : Nat) (tmpbuf : List Int),
      (smoothLoop env j ht1 row correlated i tmpbuf n).length = n ∧
      ∀ k, k < n →
        (smoothLoop env j ht1 row correlated i tmpbuf n).getD k
            ((0 : Int), (0 : Int), (0 : Int)) =
          (((row.getD (i + k) 0 : Nat) : Int) * env.pricemult j,
           correlated.getD (i + k) 0,
           priceCheckSubst (env.priceget j (ht1 - (i + k))) 2
             (smoothFresh env correlated i tmpbuf k)) := by
  intro n
  induction n with
  | zero =>
      intro i t
      exact ⟨rfl, fun k hk => absurd hk (Nat.not_lt_zero k)⟩
  | succ m ih =>
      intro i t
      constructor
      · simp only [smoothLoop, List.length_cons]
        exact congrArg Nat.succ (ih (i + 1) (env.priceave t (correlated.drop i)).2).1
      · intro k hk
        cases k with
        | zero =>
            simp only [smoothLoop, List.getD_cons_zero, Nat.add_zero]
            rfl
        | succ k2 =>
            have hk2 : k2 < m := Nat.lt_of_succ_lt_succ hk
            simp only [smoothLoop, List.getD_cons_succ]
            rw [(ih (i + 1) (env.priceave t (correlated.drop i)).2).2 k2 hk2]
            have e1 : i + 1 + k2 = i + (k2 + 1) := by omega
            rw [e1]
            rfl

/-- Whether an `Except` computation succeeded. -/
def exceptOk {alpha : Type} : Except String alpha → Bool
  | .ok _ => true
  | .error _ => false

/-- Keep only the success/error shape, the error text and the rng state. -/
def rngOutline {beta : Type} : Except String (Nat × beta) → Except String Nat
  | .ok (r, _) => .ok r
  | .error e => .error e

/-- Congruence for `exBind` under `rngOutline`: equal outlines compose
when the continuations have equal outlines at every shared rng. -/
theorem rngOutline_exBind {beta beta2 gamma gamma2 : Type}
    (X : Except String (Nat × beta)) (Y : Except String (Nat × beta2))
    (k : Nat × beta → Except String (Nat × gamma))
    (k2 : Nat × beta2 → Except String (Nat × gamma2))
    (hX : rngOutline X = rngOutline Y)
    (hk : ∀ r x y, rngOutline (k (r, x)) = rngOutline (k2 (r, y))) :
    rngOutline (exBind X k) = rngOutline (exBind Y k2) := by
  cases X with
  | error e1 =>
      cases Y with
      | error e2 => exact hX
      | ok p =>
          obtain ⟨r, x⟩ := p
          exact absurd hX (by simp [rngOutline])
  | ok p1 =>
      obtain ⟨r1, x1⟩ := p1
      cases Y with
      | error e2 => exact absurd hX (by simp [rngOutline])
      | ok p2 =>
          obtain ⟨r2, x2⟩ := p2
          have hr : r1 = r2 := by simpa [rngOutline] using hX
          subst hr
          exact hk r1 x1 x2

/-- `exceptOk` only looks at the outline. -/
theorem exceptOk_of_rngOutline {beta beta2 : Type}
    (X : Except String (Nat × beta)) (Y : Except String (Nat × beta2))
    (h : rngOutline X = rngOutline Y) : exceptOk X = exceptOk Y := by
  cases X with
  | error e1 =>
      cases Y with
      | error e2 => rfl
      | ok p => obtain ⟨r, x⟩ := p; exact absurd h (by simp [rngOutline])
  | ok p1 =>
      obtain ⟨r1, x1⟩ := p1
      cases Y with
      | error e2 => exact absurd h (by simp [rngOutline])
      | ok p => rfl

/-- `exBind` with a pure continuation succeeds exactly when its input
does. -/
theorem exceptOk_exBind_ok {beta gamma : Type} (X : Except String beta)
    (f : beta → gamma) :
    exceptOk (exBind X (fun v => .ok (f v))) = exceptOk X := by
  cases X with
  | error e => rfl
  | ok v => rfl

/-- Swapping out the stored-datapoint accessor changes neither the
correlation loop's success nor its rng threading: the stored values are
only substituted into the output. -/
theorem corrLoop_priceget_irrel (env : PricesEnv)
    (pg : Nat → Nat → Option (List Int)) (j ht1 : Nat) (row : List Nat) :
    ∀ (n i rng : Nat),
      rngOutline (corrLoop { env with priceget := pg } j ht1 row i rng n) =
        rngOutline (corrLoop env j ht1 row i rng n) := by
  intro n
  induction n with
  | zero => intro i rng; rfl
  | succ m ih =>
      intro i rng
      simp only [corrLoop]
      by_cases hc : env.pricecorrelated (lcgNext rng) j (row.drop i) < 0
      · simp only [if_pos hc]
      · simp only [if_neg hc]
        exact rngOutline_exBind _ _ _ _ (ih (i + 1) (lcgNext rng))
          (fun r x y => rfl)

/-- Swapping out the stored-datapoint accessor changes neither a feed's
success nor its rng threading. -/
theorem pricesFeed_priceget_irrel (env : PricesEnv)
    (pg : Nat → Nat → Option (List Int)) (ht1 width numsamples maxsamples : Nat)
    (row : List Nat) (j rng : Nat) :
    rngOutline (pricesFeed { env with priceget := pg } ht1 width numsamples
        maxsamples row j rng) =
      rngOutline (pricesFeed env ht1 width numsamples maxsamples row j rng) := by
  unfold pricesFeed
  by_cases hw : width ≤ numsamples
  · simp only [if_pos hw]
    exact rngOutline_exBind _ _ _ _
      (corrLoop_priceget_irrel env pg j ht1 row
        (min (maxsamples + PRICES_DAYWINDOW + PRICES_SMOOTHWIDTH) numsamples) 0 rng)
      (fun r x y => rfl)
  · rw [if_neg hw, if_neg hw]

/-- Swapping out the stored-datapoint accessor changes neither the feed
loop's success nor its rng threading. -/
theorem pricesFeedsLoop_priceget_irrel (env : PricesEnv)
    (pg : Nat → Nat → Option (List Int)) (ht1 width numsamples maxsamples : Nat)
    (samples : List (List Nat)) :
    ∀ (n j rng : Nat),
      rngOutline (pricesFeedsLoop { env with priceget := pg } ht1 width numsamples
          maxsamples samples j rng n) =
        rngOutline (pricesFeedsLoop env ht1 width numsamples maxsamples samples
          j rng n) := by
  intro n
  induction n with
  | zero => intro j rng; rfl
  | succ m ih =>
      intro j rng
      simp only [pricesFeedsLoop]
      cases hn : env.pricename j with
      | none =>
          exact rngOutline_exBind _ _ _ _ (ih (j + 1) rng) (fun r x y => rfl)
      | some nm =>
          exact rngOutline_exBind _ _ _ _
            (pricesFeed_priceget_irrel env pg ht1 width numsamples maxsamples
              (samples.map (fun v => v.getD j 0) ++
                List.replicate (width - numsamples) 0) j rng)
            (fun r x y =>
              rngOutline_exBind _ _ _ _ (ih (j + 1) r) (fun r2 x2 y2 => rfl))

/-- Swapping out the stored-datapoint accessor does not affect sample
loading at all. -/
theorem pricesLoadLoop_priceget_irrel (env : PricesEnv)
    (pg : Nat → Nat → Option (List Int)) (numpricefeeds : Nat) :
    ∀ (fuel ht : Nat),
      pricesLoadLoop { env with priceget := pg } numpricefeeds ht fuel =
        pricesLoadLoop env numpricefeeds ht fuel := by
  intro fuel
  induction fuel with
  | zero => intro ht; rfl
  | succ m ih =>
      intro ht
      simp only [pricesLoadLoop]
      rw [ih (ht - 1)]

/-- Whether the whole `prices` RPC succeeds is independent of the stored
on-chain datapoints: differing stored values are substituted, never
fatal. -/
theorem pricesRpc_priceget_irrel (env : PricesEnv)
    (pg : Nat → Nat → Option (List Int)) (maxsamples0 : Int) (nextheight : Nat) :
    exceptOk (pricesRpc { env with priceget := pg } maxsamples0 nextheight) =
      exceptOk (pricesRpc env maxsamples0 nextheight) := by
  unfold pricesRpc
  have h7 : ¬ PRICES_DAYWINDOW < 7 := by decide
  by_cases hb : env.cbopret = false
  · simp [hb]
  · simp only [if_neg hb]
    rw [if_neg h7, if_neg h7]
    cases hh : env.heightpricebits (nextheight - 1) with
    | none => rfl
    | some pr =>
        obtain ⟨seed, raw0⟩ := pr
        dsimp only
        by_cases h0 : raw0.length = 0
        · simp [h0]
        · simp only [if_neg h0]
          rw [pricesLoadLoop_priceget_irrel env pg]
          cases hl : pricesLoadLoop env raw0.length (nextheight - 1)
              (pricesWidthOf (pricesClampMax maxsamples0)) with
          | error e => rfl
          | ok samples =>
              simp only [exBind_ok]
              rw [exceptOk_exBind_ok, exceptOk_exBind_ok]
              exact exceptOk_of_rngOutline _ _
                (pricesFeedsLoop_priceget_irrel env pg (nextheight - 1)
                  (pricesWidthOf (pricesClampMax maxsamples0)) samples.length
                  (pricesClampMax maxsamples0) samples (raw0.length - 1) 1 seed)

/-- A successful full-window feed run decomposes into its correlation
pass followed by the smoothing pass over the zero-padded correlated
array. -/
theorem pricesFeed_spec (env : PricesEnv) (ht1 width numsamples maxsamples : Nat)
    (row : List Nat) (j rng rngf : Nat) (out : List (List Int))
    (hw : width ≤ numsamples)
    (h : pricesFeed env ht1 width numsamples maxsamples row j rng = .ok (rngf, out)) :
    ∃ correlated,
      corrLoop env j ht1 row 0 rng
          (min (maxsamples + PRICES_DAYWINDOW + PRICES_SMOOTHWIDTH) numsamples) =
        .ok (rngf, correlated) ∧
      out = (smoothLoop env j ht1 row
          (correlated ++ List.replicate (width - correlated.length) 0) 0
          (List.replicate (2 * PRICES_DAYWINDOW) 0)
          (min maxsamples numsamples)).map (fun t => [t.1, t.2.1, t.2.2]) := by
  unfold pricesFeed at h
  rw [if_pos hw] at h
  generalize hc : corrLoop env j ht1 row 0 rng
      (min (maxsamples + PRICES_DAYWINDOW + PRICES_SMOOTHWIDTH) numsamples) = X at h ⊢
  cases X with
  | error e =>
      simp only [exBind_error] at h
      cases h
  | ok pr =>
      simp only [exBind_ok] at h
      obtain ⟨r1, cs⟩ := pr
      injection h with h0
      injection h0 with h1 h2
      subst h1
      subst h2
      exact ⟨cs, rfl, rfl⟩

/-- C3: in the price pipeline, every freshly computed correlated value
and every freshly computed smoothed value is cross-checked against the
previously stored on-chain datapoint (`priceget`); whenever the stored
value differs, it is substituted for the fresh one (`priceCheckSubst`),
the substituted values are exactly what the pipeline emits, and the
cross-check never fails the computation: the pipeline's success is
independent of the stored datapoints. -/
theorem C3_stored_value_substitution (env : PricesEnv)
    (ht1 width numsamples maxsamples : Nat) (row : List Nat)
    (j rng rngf : Nat) (out : List (List Int))
    (hw : width ≤ numsamples)
    (h : pricesFeed env ht1 width numsamples maxsamples row j rng = .ok (rngf, out)) :
    (∃ correlated,
      corrLoop env j ht1 row 0 rng
          (min (maxsamples + PRICES_DAYWINDOW + PRICES_SMOOTHWIDTH) numsamples) =
        .ok (rngf, correlated) ∧
      (∀ k, k < min (maxsamples + PRICES_DAYWINDOW + PRICES_SMOOTHWIDTH) numsamples →
        correlated.getD k 0 = priceCheckSubst (env.priceget j (ht1 - k)) 1
          (env.pricecorrelated (lcgNext^[k + 1] rng) j (row.drop k))) ∧
      (∀ k, k < min maxsamples numsamples →
        out.getD k [] =
          [((row.getD k 0 : Nat) : Int) * env.pricemult j,
           (correlated ++ List.replicate (width - correlated.length) 0).getD k 0,
           priceCheckSubst (env.priceget j (ht1 - k)) 2
             (smoothFresh env
               (correlated ++ List.replicate (width - correlated.length) 0) 0
               (List.replicate (2 * PRICES_DAYWINDOW) 0) k)])) ∧
    (∀ (pg : Nat → Nat → Option (List Int)) (m0 : Int) (nh : Nat),
      exceptOk (pricesRpc { env with priceget := pg } m0 nh) =
        exceptOk (pricesRpc env m0 nh)) := by
  obtain ⟨correlated, hc, hout⟩ :=
    pricesFeed_spec env ht1 width numsamples maxsamples row j rng rngf out hw h
  obtain ⟨hr, hlen, hcs⟩ := corrLoop_spec env j ht1 row _ 0 rng rngf correlated hc
  refine ⟨⟨correlated, hc, ?_, ?_⟩,
    fun pg m0 nh => pricesRpc_priceget_irrel env pg m0 nh⟩
  · intro k hk
    have hk0 := hcs k hk
    simpa using hk0
  · intro k hk
    subst hout
    obtain ⟨hslen, hsk⟩ := smoothLoop_spec env j ht1 row
      (correlated ++ List.replicate (width - correlated.length) 0)
      (min maxsamples numsamples) 0 (List.replicate (2 * PRICES_DAYWINDOW) 0)
    rw [getD_map_lt _ _ k (by rw [hslen]; exact hk) ((0 : Int), (0 : Int), (0 : Int))]
    rw [hsk k hk]
    simp

/-- A concrete price environment exercising both substitutions: the
stored datapoint (7, 8) differs from the fresh correlated value 10 and
the fresh smoothed value 9. -/
def envPrices1 : PricesEnv :=
  { cbopret := true
    chainHeight := 100
    heightpricebits := fun _ => some (1, [11, 5])
    pricename := fun _ => some "TEST"
    pricecorrelated := fun _ _ _ => 10
    priceget := fun _ _ => some [0, 7, 8]
    priceave := fun t _ => (9, t)
    pricemult := fun _ => 1 }

/-- C3 witness: a one-sample run in which the stored correlated price 7
replaces the fresh value 10 and the stored smoothed price 8 replaces the
fresh value 9 in the emitted triple. -/
theorem C3_stored_value_substitution_witness :
    (1 : Nat) ≤ 1 ∧
    pricesFeed envPrices1 10 1 1 1 [5] 1 3 = .ok (47176, [[5, 7, 8]]) ∧
    ((∃ correlated,
      corrLoop envPrices1 1 10 [5] 0 3
          (min (1 + PRICES_DAYWINDOW + PRICES_SMOOTHWIDTH) 1) =
        .ok (47176, correlated) ∧
      (∀ k, k < min (1 + PRICES_DAYWINDOW + PRICES_SMOOTHWIDTH) 1 →
        correlated.getD k 0 = priceCheckSubst (envPrices1.priceget 1 (10 - k)) 1
          (envPrices1.pricecorrelated (lcgNext^[k + 1] 3) 1
            (([5] : List Nat).drop k))) ∧
      (∀ k, k < min 1 1 →
        ([[5, 7, 8]] : List (List Int)).getD k [] =
          [((([5] : List Nat).getD k 0 : Nat) : Int) * envPrices1.pricemult 1,
           (correlated ++ List.replicate (1 - correlated.length) 0).getD k 0,
           priceCheckSubst (envPrices1.priceget 1 (10 - k)) 2
             (smoothFresh envPrices1
               (correlated ++ List.replicate (1 - correlated.length) 0) 0
               (List.replicate (2 * PRICES_DAYWINDOW) 0) k)])) ∧
    (∀ (pg : Nat → Nat → Option (List Int)) (m0 : Int) (nh : Nat),
      exceptOk (pricesRpc { envPrices1 with priceget := pg } m0 nh) =
        exceptOk (pricesRpc envPrices1 m0 nh))) :=
  ⟨Nat.le_refl 1, rfl,
   C3_stored_value_substitution envPrices1 10 1 1 1 [5] 1 3 47176 [[5, 7, 8]]
     (Nat.le_refl 1) rfl⟩

/-- What a successful feed loop over named feeds returns: the rng
advanced once per sample of every processed feed, and the correlated
entry of feed position `p`, sample `k`, computed from LCG iterate
`p·count + k + 1` of the incoming rng, where `count` is the per-feed
sample count. -/
theorem pricesFeedsLoop_spec (env : PricesEnv)
    (ht1 width numsamples maxsamples : Nat) (samples : List (List Nat))
    (hw : width ≤ numsamples) :
    ∀ (n j rng rngf : Nat) (out : List (String × List (List Int))),
      (∀ p, p < n → (env.pricename (j + p)).isSome = true) →
      pricesFeedsLoop env ht1 width numsamples maxsamples samples j rng n =
        .ok (rngf, out) →
      rngf = lcgNext^[n * min (maxsamples + PRICES_DAYWINDOW + PRICES_SMOOTHWIDTH)
        numsamples] rng ∧
      out.length = n ∧
      ∀ p, p < n → ∀ k, k < min maxsamples numsamples →
        ((out.getD p ("", [])).2.getD k []).getD 1 0 =
          priceCheckSubst (env.priceget (j + p) (ht1 - k)) 1
            (env.pricecorrelated
              (lcgNext^[p * min (maxsamples + PRICES_DAYWINDOW + PRICES_SMOOTHWIDTH)
                numsamples + k + 1] rng)
              (j + p)
              ((samples.map (fun (v : List Nat) => v.getD (j + p) 0) ++
                List.replicate (width - numsamples) 0).drop k)) := by
  intro n
  induction n with
  | zero =>
      intro j rng rngf out hnames h
      simp only [pricesFeedsLoop] at h
      cases h
      exact ⟨by simp, rfl, fun p hp => absurd hp (Nat.not_lt_zero p)⟩
  | succ m ih =>
      intro j rng rngf out hnames h
      simp only [pricesFeedsLoop] at h
      have hn0 : (env.pricename (j + 0)).isSome = true := hnames 0 (Nat.succ_pos m)
      rw [Nat.add_zero] at hn0
      obtain ⟨nm, hnm⟩ := Option.isSome_iff_exists.mp hn0
      rw [hnm] at h
      dsimp only at h
      cases hf : pricesFeed env ht1 width numsamples maxsamples
          (samples.map (fun v => v.getD j 0) ++
            List.replicate (width - numsamples) 0) j rng with
      | error e =>
          rw [hf] at h
          simp only [exBind_error] at h
          cases h
      | ok pr =>
          rw [hf] at h
          simp only [exBind_ok] at h
          obtain ⟨rng1, dat⟩ := pr
          cases hrec : pricesFeedsLoop env ht1 width numsamples maxsamples samples
              (j + 1) rng1 m with
          | error e =>
              rw [hrec] at h
              simp only [exBind_error] at h
              cases h
          | ok qr =>
              rw [hrec] at h
              simp only [exBind_ok] at h
              obtain ⟨rngr, rest⟩ := qr
              injection h with h0
              injection h0 with h1 h2
              subst h1
              subst h2
              obtain ⟨correlated, hc, hdat⟩ := pricesFeed_spec env ht1 width
                numsamples maxsamples _ j rng rng1 dat hw hf
              obtain ⟨hr1, hclen, hcs⟩ := corrLoop_spec env j ht1 _ _ 0 rng rng1
                correlated hc
              have hnames2 : ∀ p, p < m → (env.pricename (j + 1 + p)).isSome = true := by
                intro p hp
                have hx := hnames (p + 1) (by omega)
                have e3 : j + (p + 1) = j + 1 + p := by omega
                rw [e3] at hx
                exact hx
              obtain ⟨ih1, ih2, ih3⟩ := ih (j + 1) rng1 rngr rest hnames2 hrec
              refine ⟨?_, by simp [ih2], ?_⟩
              · rw [ih1, hr1, ← Function.iterate_add_apply, Nat.succ_mul]
              · intro p hp k hk
                cases p with
                | zero =>
                    simp only [List.getD_cons_zero]
                    subst hdat
                    have hkc : k < (smoothLoop env j ht1
                        (samples.map (fun v => v.getD j 0) ++
                          List.replicate (width - numsamples) 0)
                        (correlated ++ List.replicate (width - correlated.length) 0)
                        0 (List.replicate (2 * PRICES_DAYWINDOW) 0)
                        (min maxsamples numsamples)).length := by
                      rw [(smoothLoop_spec env j ht1 _ _ (min maxsamples numsamples)
                        0 (List.replicate (2 * PRICES_DAYWINDOW) 0)).1]
                      exact hk
                    rw [getD_map_lt _ _ k hkc ((0 : Int), (0 : Int), (0 : Int))]
                    rw [(smoothLoop_spec env j ht1 _ _ (min maxsamples numsamples)
                      0 (List.replicate (2 * PRICES_DAYWINDOW) 0)).2 k hk]
                    have hkc1 : k < correlated.length := by
                      rw [hclen]
                      exact lt_of_lt_of_le hk
                        (min_le_min (by omega) (le_refl numsamples))
                    simp only [List.getD_cons_succ, List.getD_cons_zero, Nat.zero_add]
                    rw [List.getD_append _ _ _ _ hkc1]
                    rw [hcs k (lt_of_lt_of_le hk
                      (min_le_min (by omega) (le_refl numsamples)))]
                    simp
                | succ p2 =>
                    simp only [List.getD_cons_succ]
                    rw [ih3 p2 (by omega) k hk]
                    rw [hr1, ← Function.iterate_add_apply]
                    have e4 : p2 * min (maxsamples + PRICES_DAYWINDOW +
                        PRICES_SMOOTHWIDTH) numsamples + k + 1 +
                        min (maxsamples + PRICES_DAYWINDOW + PRICES_SMOOTHWIDTH)
                          numsamples =
                        (p2 + 1) * min (maxsamples + PRICES_DAYWINDOW +
                          PRICES_SMOOTHWIDTH) numsamples + k + 1 := by
                      ring
                    rw [e4]
                    have e3 : j + 1 + p2 = j + (p2 + 1) := by omega
                    rw [e3]

/-- C7: in the correlation step of the price pipeline, the pseudo-random
weight seed follows the 64-bit linear-congruential recurrence
`rngval' = rngval*11109 + 13849` (`lcgNext`), advanced exactly once per
sample before each call to the correlation function — feed position `p`,
sample `k` receives LCG iterate `p·count + k + 1` of the rng the loop
started with — and the `prices` RPC starts that loop from the chain seed
extracted for the reference height. -/
theorem C7_lcg_weight_seed (env : PricesEnv)
    (ht1 width numsamples maxsamples : Nat) (samples : List (List Nat))
    (n j rng rngf : Nat) (out : List (String × List (List Int)))
    (hw : width ≤ numsamples)
    (hnames : ∀ p, p < n → (env.pricename (j + p)).isSome = true)
    (h : pricesFeedsLoop env ht1 width numsamples maxsamples samples j rng n =
      .ok (rngf, out)) :
    rngf = lcgNext^[n * min (maxsamples + PRICES_DAYWINDOW + PRICES_SMOOTHWIDTH)
      numsamples] rng ∧
    (∀ p, p < n → ∀ k, k < min maxsamples numsamples →
      ((out.getD p ("", [])).2.getD k []).getD 1 0 =
        priceCheckSubst (env.priceget (j + p) (ht1 - k)) 1
          (env.pricecorrelated
            (lcgNext^[p * min (maxsamples + PRICES_DAYWINDOW + PRICES_SMOOTHWIDTH)
              numsamples + k + 1] rng)
            (j + p)
            ((samples.map (fun (v : List Nat) => v.getD (j + p) 0) ++
              List.replicate (width - numsamples) 0).drop k))) ∧
    (∀ (m0 : Int) (nh : Nat) (res : PricesResult) (seed : Nat) (raw0 : List Nat),
      pricesRpc env m0 nh = .ok res →
      env.heightpricebits (nh - 1) = some (seed, raw0) →
      res.seed = seed ∧
      ∃ samples2 rngf2,
        pricesLoadLoop env raw0.length (nh - 1)
          (pricesWidthOf (pricesClampMax m0)) = .ok samples2 ∧
        pricesFeedsLoop env (nh - 1) (pricesWidthOf (pricesClampMax m0))
          samples2.length (pricesClampMax m0) samples2 1 seed
          (raw0.length - 1) = .ok (rngf2, res.pricefeeds)) := by
  obtain ⟨h1, _, h3⟩ := pricesFeedsLoop_spec env ht1 width numsamples maxsamples
    samples hw n j rng rngf out hnames h
  refine ⟨h1, h3, ?_⟩
  intro m0 nh res seed raw0 hres hseed
  unfold pricesRpc at hres
  by_cases hb : env.cbopret = false
  · rw [if_pos hb] at hres
    cases hres
  · rw [if_neg hb] at hres
    rw [if_neg (by decide : ¬ PRICES_DAYWINDOW < 7)] at hres
    rw [hseed] at hres
    dsimp only at hres
    by_cases h0 : raw0.length = 0
    · rw [if_pos h0] at hres
      cases hres
    · rw [if_neg h0] at hres
      cases hl : pricesLoadLoop env raw0.length (nh - 1)
          (pricesWidthOf (pricesClampMax m0)) with
      | error e =>
          rw [hl] at hres
          simp only [exBind_error] at hres
          cases hres
      | ok samples2 =>
          rw [hl] at hres
          simp only [exBind_ok] at hres
          cases hfl : pricesFeedsLoop env (nh - 1)
              (pricesWidthOf (pricesClampMax m0)) samples2.length
              (pricesClampMax m0) samples2 1 seed (raw0.length - 1) with
          | error e =>
              rw [hfl] at hres
              simp only [exBind_error] at hres
              cases hres
          | ok pr2 =>
              rw [hfl] at hres
              simp only [exBind_ok] at hres
              obtain ⟨rngf2, feeds⟩ := pr2
              injection hres with hres0
              subst hres0
              exact ⟨rfl, samples2, rngf2, rfl, hfl⟩

/-- C7 witness: a one-feed, one-sample run from rng 3: the single
correlation call receives `lcgNext 3 = 47176`, which is also the final
rng state. -/
theorem C7_lcg_weight_seed_witness :
    (1 : Nat) ≤ 1 ∧
    (∀ p, p < 1 → (envPrices1.pricename (1 + p)).isSome = true) ∧
    pricesFeedsLoop envPrices1 10 1 1 1 [[11, 5]] 1 3 1 =
      .ok (47176, [("TEST", [[5, 7, 8]])]) ∧
    ((47176 : Nat) = lcgNext^[1 * min (1 + PRICES_DAYWINDOW + PRICES_SMOOTHWIDTH) 1] 3 ∧
    (∀ p, p < 1 → ∀ k, k < min 1 1 →
      ((([("TEST", [[5, 7, 8]])] : List (String × List (List Int))).getD p
          ("", [])).2.getD k []).getD 1 0 =
        priceCheckSubst (envPrices1.priceget (1 + p) (10 - k)) 1
          (envPrices1.pricecorrelated
            (lcgNext^[p * min (1 + PRICES_DAYWINDOW + PRICES_SMOOTHWIDTH) 1 + k + 1] 3)
            (1 + p)
            ((([[11, 5]] : List (List Nat)).map
                (fun (v : List Nat) => v.getD (1 + p) 0) ++
              List.replicate (1 - 1) 0).drop k))) ∧
    (∀ (m0 : Int) (nh : Nat) (res : PricesResult) (seed : Nat) (raw0 : List Nat),
      pricesRpc envPrices1 m0 nh = .ok res →
      envPrices1.heightpricebits (nh - 1) = some (seed, raw0) →
      res.seed = seed ∧
      ∃ samples2 rngf2,
        pricesLoadLoop envPrices1 raw0.length (nh - 1)
          (pricesWidthOf (pricesClampMax m0)) = .ok samples2 ∧
        pricesFeedsLoop envPrices1 (nh - 1) (pricesWidthOf (pricesClampMax m0))
          samples2.length (pricesClampMax m0) samples2 1 seed
          (raw0.length - 1) = .ok (rngf2, res.pricefeeds))) :=
  ⟨Nat.le_refl 1, by decide, rfl,
   C7_lcg_weight_seed envPrices1 10 1 1 1 [[11, 5]] 1 1 3 47176
     [("TEST", [[5, 7, 8]])] (Nat.le_refl 1) (by decide) rfl⟩

end SfusdCore
